import Mathlib

/-!
Verification development for the Collab Session relay server (`server.js`).

The repository ships three successive snapshots of `server.js` concatenated in
one file.  The first snapshot (the plain in-memory MVP) and the second
(identical protocol logic plus SQLite persistence side effects, which produce
no protocol outputs) are embedded in namespace `V1`; the third snapshot, whose
protocol logic differs (machine-id ownership checks, join rejection on name
collision, member disconnection on close, silent drop of malformed frames), is
embedded in namespace `V3`.

Sockets are modelled by natural-number identifiers; per-socket mutable fields
(`ws.__meta`, `socketMeta`) become finite function components of an explicit
server state; JavaScript's dynamically typed message fields become a small
`Js` value type with the truthiness and `String(...)` coercions the source
relies on; outbound `send`/`close` effects become an explicit output list.
`JSON.stringify`/network delivery and the SQLite statements are not modelled:
they produce no protocol-visible state change.  A handler that can throw a
`TypeError` (calling `.toUpperCase()` on a truthy non-string) or loop
(unbounded retry over random tokens) returns `Except JsAbort`.
-/

namespace Collab

/-- Socket identifiers stand for the identity of a `ws` connection object. -/
abbrev SocketId := Nat

/-- Model of the JavaScript values that can appear in a decoded JSON field.
`obj` and `arr` are opaque markers for non-empty structured values; their
content is never inspected by the server except through the coercions below. -/
inductive Js where
  | str (s : String)
  | num (n : Int)
  | bool (b : Bool)
  | null
  | undef
  | obj
  | arr
  deriving DecidableEq, Repr

/-- JavaScript truthiness of a `Js` value (`if (x)`, `x || y`). -/
def Js.truthy : Js → Bool
  | .str s => s != ""
  | .num n => n != 0
  | .bool b => b
  | .null => false
  | .undef => false
  | .obj => true
  | .arr => true

/-- JavaScript `String(x)` coercion.  `String([])` is `""` and
`String({})` is `"[object Object]"`. -/
def Js.toStr : Js → String
  | .str s => s
  | .num n => toString n
  | .bool b => if b then "true" else "false"
  | .null => "null"
  | .undef => "undefined"
  | .obj => "[object Object]"
  | .arr => ""

/-- JavaScript `a || b`. -/
def jsOr (a b : Js) : Js := if a.truthy then a else b

/-- `String.prototype.toUpperCase()` (ASCII range, which covers every string
the server constructs or compares). -/
def jsToUpper (s : String) : String := String.mk (s.data.map Char.toUpper)

/-- `String.prototype.trim()`: strip leading and trailing whitespace. -/
def jsTrim (s : String) : String :=
  String.mk (((s.data.dropWhile Char.isWhitespace).reverse.dropWhile
    Char.isWhitespace).reverse)

/-- A JavaScript string-or-`undefined` metadata field viewed as a `Js` value. -/
def jsOfOpt : Option String → Js
  | none => .undef
  | some s => .str s

/-- Truthiness of a string-or-`undefined` metadata field (`!sid`, `!name`):
false for `undefined` and for the empty string. -/
def optTruthy : Option String → Bool
  | none => false
  | some s => s != ""

/-- Abnormal outcomes of a handler: an uncaught `TypeError`, or an unbounded
retry loop that never finds a fresh token (modelled by exhausting the supplied
stream of random draws). -/
inductive JsAbort where
  | typeError
  | diverge
  deriving DecidableEq, Repr

/-- `(x || '').toUpperCase().trim()` as used by `createSession`/`joinSession`
of the first snapshot: throws a `TypeError` when `x` is a truthy non-string. -/
def upperTrimOrThrow (x : Js) : Except JsAbort String :=
  match jsOr x (.str "") with
  | .str s => .ok (jsTrim (jsToUpper s))
  | _ => .error .typeError

/-- `String(x || '')`. -/
def strOf (x : Js) : String := (jsOr x (.str "")).toStr

/-- `String(x || '').trim()`. -/
def strTrimOf (x : Js) : String := jsTrim (strOf x)

/-! ### Decimal rendering of naturals (the `${i}` template interpolation) -/

/-- Decimal rendering of a natural number, as produced by the template string
`` `${name}-${i++}` `` for the positive counters the join loop uses. -/
def natStr (n : Nat) : String :=
  String.mk (((Nat.digits 10 n).reverse).map Nat.digitChar)

/-- Left inverse of `natStr`: read a decimal string back as a number. -/
def natOfStr (s : String) : Nat :=
  s.data.foldl (fun a c => a * 10 + (c.toNat - 48)) 0

/-! ### Association-list model of a JavaScript `Map`

JavaScript `Map`s iterate in insertion order; `set` on an existing key updates
in place, `set` on a fresh key appends, `delete` removes the (unique) entry. -/

/-- `Map.prototype.get`. -/
def mapGet? {α : Type} : List (String × α) → String → Option α
  | [], _ => none
  | (k, v) :: rest, key => if k = key then some v else mapGet? rest key

/-- `Map.prototype.has`. -/
def mapHas {α : Type} (m : List (String × α)) (key : String) : Bool :=
  (mapGet? m key).isSome

/-- `Map.prototype.set`. -/
def mapSet {α : Type} : List (String × α) → String → α → List (String × α)
  | [], key, v => [(key, v)]
  | (k, w) :: rest, key, v =>
      if k = key then (key, v) :: rest else (k, w) :: mapSet rest key v

/-- `Map.prototype.delete` (the removal; the Boolean result is `mapHas`). -/
def mapDelete {α : Type} : List (String × α) → String → List (String × α)
  | [], _ => []
  | (k, v) :: rest, key => if k = key then rest else (k, v) :: mapDelete rest key

/-- `[...m.keys()]`. -/
def mapKeys {α : Type} (m : List (String × α)) : List String := m.map Prod.fst

/-- `[...m.values()]`. -/
def mapValues {α : Type} (m : List (String × α)) : List α := m.map Prod.snd

/-! ### Outbound events and effects -/

/-- Outbound events of the protocol (the `type` tag and payload of each frame
the server sends).  `usersList` is the `users` frame, `question` the
`question` frame. -/
inductive Event where
  | created (sessionId : String)
  | errorMsg (message : String)
  | joined (sessionId name question : String)
  | userJoined (sessionId name : String)
  | usersList (sessionId : String) (users : List String)
  | question (text : String)
  | answerReceived (name code : String)
  | feedback (text : String)
  | sessionClosed
  | userLeft (sessionId name : String)
  deriving DecidableEq, Repr

/-- An observable effect of a handler: queuing a frame on a socket, or a
server-initiated disconnect of a socket (`ws.close()` / `ws.terminate()`). -/
inductive Output where
  | msg (target : SocketId) (ev : Event)
  | disconnect (target : SocketId)
  deriving DecidableEq, Repr

/-- Whether an output is a server-initiated disconnect. -/
def Output.isDisconnect : Output → Bool
  | .msg _ _ => false
  | .disconnect _ => true

/-- A decoded inbound message: the fields the first-snapshot dispatch reads.
Absent JSON fields read as `undefined`. -/
structure Msg where
  type : Js
  sessionId : Js
  name : Js
  text : Js
  code : Js
  /-- the `to` field of a `feedback` command (`to` is reserved in Lean) -/
  toUser : Js
  deriving DecidableEq, Repr

namespace V1

/-!
Embedding of the first snapshot of `server.js` (the second snapshot has the
same protocol logic; its added SQLite statements emit no frames and touch no
in-memory state).
-/

/-- `sessions` map entry: `{ host: ws, users: Map<name, ws>, question }`. -/
structure Session where
  host : SocketId
  users : List (String × SocketId)
  question : String
  deriving DecidableEq, Repr

/-- `ws.__meta`: the record written by `setMeta`.  A field never assigned
reads as `undefined` (`none`). -/
structure Meta where
  role : Option String
  sid : Option String
  name : Option String
  deriving DecidableEq, Repr

/-- The server's mutable state: the `sessions` map, every socket's `__meta`
record, and every socket's `readyState === OPEN` flag. -/
structure ServerState where
  sessions : List (String × Session)
  meta : SocketId → Meta
  isOpen : SocketId → Bool

/-- Pointwise metadata update (mutating one socket's `__meta`). -/
def updMeta (f : SocketId → Meta) (ws : SocketId) (g : Meta → Meta) : SocketId → Meta :=
  fun w => if w = ws then g (f w) else f w

/-- `broadcastSession(sid, payload, exclude)`: host first, then members in
insertion order, skipping sockets that are not `OPEN` and the excluded one. -/
def broadcastSession (st : ServerState) (sid : String) (ev : Event)
    (exclude : Option SocketId) : List Output :=
  match mapGet? st.sessions sid with
  | none => []
  | some s =>
      (if st.isOpen s.host && (some s.host != exclude) then [Output.msg s.host ev] else [])
        ++ (mapValues s.users).filterMap fun sock =>
             if st.isOpen sock && (some sock != exclude) then some (Output.msg sock ev)
             else none

/-- `pushUsersList(sid)`. -/
def pushUsersList (st : ServerState) (sid : String) : List Output :=
  match mapGet? st.sessions sid with
  | none => []
  | some s => broadcastSession st sid (Event.usersList sid (mapKeys s.users)) none

/-- The retry loop `sid = rand(); while (sessions.has(sid)) sid = rand();`
over a stream of random draws: the first draw not present in the registry. -/
def findFresh (gen : List String) (sessions : List (String × Session)) : Option String :=
  match gen with
  | [] => none
  | g :: rest => if mapHas sessions g then findFresh rest sessions else some g

/-- `createSession(ws, proposed)`.  `gen` is the stream of values produced by
`Math.random().toString(36).slice(2, 8).toUpperCase()`. -/
def createSession (gen : List String) (st : ServerState) (ws : SocketId) (proposed : Js) :
    Except JsAbort (ServerState × List Output) :=
  match upperTrimOrThrow proposed with
  | .error e => .error e
  | .ok sid0 =>
      match if sid0 = "" ∨ mapHas st.sessions sid0 = true then findFresh gen st.sessions
            else some sid0 with
      | none => .error .diverge
      | some sid =>
          let st1 : ServerState :=
            { st with
              sessions := mapSet st.sessions sid ⟨ws, [], ""⟩,
              meta := updMeta st.meta ws fun m => { m with role := some "host", sid := some sid } }
          .ok (st1, Output.msg ws (Event.created sid) :: pushUsersList st1 sid)

/-- `candAt name k` is the `k`-th candidate tried by the join loop:
`name`, then `` `${name}-2` ``, `` `${name}-3` ``, ... -/
def candAt (name : String) : Nat → String
  | 0 => name
  | k + 1 => name ++ "-" ++ natStr (k + 2)

/-- The loop `while (s.users.has(final)) final = `...`-${i++}` `, with fuel;
`pickUnique` below supplies fuel that provably suffices. -/
def suffixFrom (users : List (String × SocketId)) (name : String) :
    Nat → Nat → Option String
  | 0, _ => none
  | fuel + 1, k =>
      if mapHas users (candAt name k) then suffixFrom users name fuel (k + 1)
      else some (candAt name k)

/-- The unique-name computation of `joinSession`. -/
def pickUnique (users : List (String × SocketId)) (name : String) : Option String :=
  suffixFrom users name (users.length + 1) 0

/-- `joinSession(ws, sid, name)`. -/
def joinSession (st : ServerState) (ws : SocketId) (sidJs nameJs : Js) :
    Except JsAbort (ServerState × List Output) :=
  match upperTrimOrThrow sidJs with
  | .error e => .error e
  | .ok sid =>
      let name := strTrimOf nameJs
      match mapGet? st.sessions sid with
      | none => .ok (st, [Output.msg ws (Event.errorMsg "Invalid session or name")])
      | some s =>
          if sid = "" ∨ name = "" then
            .ok (st, [Output.msg ws (Event.errorMsg "Invalid session or name")])
          else
            match pickUnique s.users name with
            | none => .error .diverge
            | some finalName =>
                let st1 : ServerState :=
                  { st with
                    sessions := mapSet st.sessions sid
                      { s with users := mapSet s.users finalName ws },
                    meta := updMeta st.meta ws fun m =>
                      { m with role := some "student", sid := some sid,
                               name := some finalName } }
                .ok (st1,
                  Output.msg ws (Event.joined sid finalName s.question)
                    :: broadcastSession st1 sid (Event.userJoined sid finalName) none
                    ++ pushUsersList st1 sid)

/-- `setQuestion(ws, text)`: the guard is the source's
`if (role !== 'host' || !sid)`; past it, `sid` is a non-empty string. -/
def setQuestion (st : ServerState) (ws : SocketId) (textJs : Js) :
    ServerState × List Output :=
  let m := st.meta ws
  if (m.role != some "host") || !optTruthy m.sid then
    (st, [Output.msg ws (Event.errorMsg "Only host can set question")])
  else
    let sid := m.sid.getD ""
    match mapGet? st.sessions sid with
    | none => (st, [])
    | some s =>
        let text := strOf textJs
        let st1 : ServerState :=
          { st with sessions := mapSet st.sessions sid { s with question := text } }
        (st1, broadcastSession st1 sid (Event.question text) none)

/-- `handleAnswer(ws, code)` (first snapshot: the raw `msg.code` value).
The guard is `if (role !== 'student' || !sid || !name) return;`. -/
def handleAnswer (st : ServerState) (ws : SocketId) (codeJs : Js) :
    ServerState × List Output :=
  let m := st.meta ws
  if (m.role != some "student") || !optTruthy m.sid || !optTruthy m.name then (st, [])
  else
    match mapGet? st.sessions (m.sid.getD "") with
    | none => (st, [])
    | some s =>
        (st, [Output.msg s.host (Event.answerReceived (m.name.getD "") (strOf codeJs))])

/-- `sendFeedback(ws, to, text)`. -/
def sendFeedback (st : ServerState) (ws : SocketId) (toJs textJs : Js) :
    ServerState × List Output :=
  let m := st.meta ws
  if (m.role != some "host") || !optTruthy m.sid then
    (st, [Output.msg ws (Event.errorMsg "Only host can send feedback")])
  else
    match mapGet? st.sessions (m.sid.getD "") with
    | none => (st, [])
    | some s =>
        match mapGet? s.users (strTrimOf toJs) with
        | none => (st, [Output.msg ws (Event.errorMsg "Student not found")])
        | some target => (st, [Output.msg target (Event.feedback (strOf textJs))])

/-- Set `sid` of every socket in `l` to `undefined`
(`for (const sock of s.users.values()) setMeta(sock, { sid: undefined })`). -/
def unbindAll (f : SocketId → Meta) (l : List SocketId) : SocketId → Meta :=
  l.foldl (fun g sock => updMeta g sock fun m => { m with sid := none }) f

/-- `closeSession(ws)`: guarded by `if (role !== 'host' || !sid) return;`. -/
def closeSession (st : ServerState) (ws : SocketId) : ServerState × List Output :=
  let m := st.meta ws
  if (m.role != some "host") || !optTruthy m.sid then (st, [])
  else
    let sid := m.sid.getD ""
    match mapGet? st.sessions sid with
    | none => (st, [])
    | some s =>
        let outs := broadcastSession st sid Event.sessionClosed none
        let meta1 := unbindAll st.meta (mapValues s.users)
        let meta2 := updMeta meta1 ws fun mm => { mm with sid := none }
        (⟨mapDelete st.sessions sid, meta2, st.isOpen⟩, outs)

/-- `cleanupSocket(ws)`: host branch closes the session (without resetting the
host's own metadata); student branch deletes the membership entry only when it
still maps to this socket, then broadcasts `userLeft` and the user list
unconditionally. -/
def cleanupSocket (st : ServerState) (ws : SocketId) : ServerState × List Output :=
  let m := st.meta ws
  if !optTruthy m.sid then (st, [])
  else
    let sid := m.sid.getD ""
    match mapGet? st.sessions sid with
    | none => (st, [])
    | some s =>
        if m.role == some "host" then
          let outs := broadcastSession st sid Event.sessionClosed (some ws)
          let meta1 := unbindAll st.meta (mapValues s.users)
          (⟨mapDelete st.sessions sid, meta1, st.isOpen⟩, outs)
        else if (m.role == some "student") && optTruthy m.name then
          let name := m.name.getD ""
          let users1 :=
            if mapGet? s.users name == some ws then mapDelete s.users name
            else s.users
          let st1 : ServerState :=
            { st with sessions := mapSet st.sessions sid { s with users := users1 } }
          (st1, broadcastSession st1 sid (Event.userLeft sid name) (some ws)
                  ++ pushUsersList st1 sid)
        else (st, [])

/-- The `ws.on('message')` dispatch: `safeParse` failure or a non-string
`type` yields the `Bad message` error; otherwise the switch. -/
def handleMessage (gen : List String) (st : ServerState) (ws : SocketId)
    (decoded : Option Msg) : Except JsAbort (ServerState × List Output) :=
  match decoded with
  | none => .ok (st, [Output.msg ws (Event.errorMsg "Bad message")])
  | some m =>
      match m.type with
      | .str t =>
          if t == "create" then createSession gen st ws m.sessionId
          else if t == "join" then joinSession st ws m.sessionId m.name
          else if t == "setQuestion" then .ok (setQuestion st ws m.text)
          else if t == "answer" then .ok (handleAnswer st ws m.code)
          else if t == "feedback" then .ok (sendFeedback st ws m.toUser m.text)
          else if t == "close" then .ok (closeSession st ws)
          else if t == "leave" then .ok (cleanupSocket st ws)
          else .ok (st, [Output.msg ws (Event.errorMsg "Unknown type")])
      | _ => .ok (st, [Output.msg ws (Event.errorMsg "Bad message")])

end V1

namespace V3

/-!
Embedding of the third snapshot of `server.js`: machine-id ownership checks on
`create`, rejection (not suffixing) of colliding join names, member sockets
closed on session close, malformed frames silently dropped, and no default
branch for unknown message types.  SQLite persistence is again unmodelled.
-/

/-- `sessions` entry:
`{ sid, owner, ownerMachineId, users: Map<name, {socket, machineId}>, question }`. -/
structure Session where
  sid : String
  owner : SocketId
  ownerMachineId : String
  users : List (String × (SocketId × String))
  question : String
  deriving DecidableEq, Repr

/-- An entry of the `socketMeta` `WeakMap`. -/
structure Meta where
  sid : Option String
  name : Option String
  role : Option String
  machineId : Option String
  isAlive : Bool
  deriving DecidableEq, Repr

/-- The meta value `{ isAlive: true }` the handlers reset to. -/
def Meta.fresh : Meta := ⟨none, none, none, none, true⟩

/-- Server state of the third snapshot. -/
structure ServerState where
  sessions : List (String × Session)
  socketMeta : SocketId → Meta

/-- Replace one socket's `socketMeta` entry (`socketMeta.set(socket, …)`). -/
def setMeta3 (f : SocketId → Meta) (sock : SocketId) (m : Meta) : SocketId → Meta :=
  fun w => if w = sock then m else f w

/-- `broadcast(session, payload)`: every member in insertion order, then the
owner.  Failed sends are swallowed by `try`/`catch`, so no liveness check. -/
def broadcast (s : Session) (ev : Event) : List Output :=
  ((mapValues s.users).map fun u => Output.msg u.1 ev) ++ [Output.msg s.owner ev]

/-- `[...session.users.keys()].map(n => ({name: n}))` as a name list. -/
def usersPayload (s : Session) : List String := mapKeys s.users

/-- `getOrCreateSession(sid, ownerSocket, ownerMachineId)`: returns the
existing session unchanged if the identifier is already registered. -/
def getOrCreateSession (st : ServerState) (sid : String) (ownerSocket : SocketId)
    (ownerMachineId : String) : ServerState × Session :=
  match mapGet? st.sessions sid with
  | some s => (st, s)
  | none =>
      let s : Session := ⟨sid, ownerSocket, ownerMachineId, [], ""⟩
      ({ st with sessions := mapSet st.sessions sid s }, s)

/-- The `create` branch of the third snapshot's message handler. -/
def createHandler (st : ServerState) (socket : SocketId) (sessionIdJs machineIdJs : Js) :
    ServerState × List Output :=
  let sid := jsToUpper (strOf sessionIdJs)
  let machineId := strTrimOf machineIdJs
  if sid == "" then (st, [Output.msg socket (Event.errorMsg "Bad session id")])
  else if ((mapValues st.sessions).any fun s => s.owner == socket)
       || ((mapValues st.sessions).any fun s => s.ownerMachineId == machineId) then
    (st, [Output.msg socket (Event.errorMsg "You already own a session on this machine")])
  else
    let p := getOrCreateSession st sid socket machineId
    let st2 : ServerState :=
      { p.1 with socketMeta := (setMeta3 p.1.socketMeta socket
          ⟨some sid, none, some "host", some machineId, true⟩) }
    (st2, Output.msg socket (Event.created sid)
      :: broadcast p.2 (Event.usersList sid (usersPayload p.2))
      ++ (if p.2.question == "" then [] else broadcast p.2 (Event.question p.2.question)))

/-- The `join` branch: a colliding name is rejected, not suffixed. -/
def joinHandler (st : ServerState) (socket : SocketId)
    (sessionIdJs nameJs machineIdJs : Js) : ServerState × List Output :=
  let sid := jsToUpper (strOf sessionIdJs)
  let name := strTrimOf nameJs
  let machineId := strTrimOf machineIdJs
  match mapGet? st.sessions sid with
  | none => (st, [Output.msg socket (Event.errorMsg "Invalid session")])
  | some s =>
      if name == "" then (st, [Output.msg socket (Event.errorMsg "Name required")])
      else if mapHas s.users name then
        (st, [Output.msg socket (Event.errorMsg "Name already used")])
      else if ((mapValues s.users).any fun u => u.2 == machineId)
           || (s.ownerMachineId == machineId) then
        (st, [Output.msg socket
          (Event.errorMsg "This machine already participates in this session")])
      else
        let s1 := { s with users := mapSet s.users name (socket, machineId) }
        let st1 : ServerState :=
          { sessions := mapSet st.sessions sid s1,
            socketMeta := setMeta3 st.socketMeta socket
              ⟨some sid, some name, some "student", some machineId, true⟩ }
        (st1, Output.msg socket (Event.joined sid name s.question)
          :: broadcast s1 (Event.usersList sid (usersPayload s1))
          ++ broadcast s1 (Event.userJoined sid name))

/-- The `setQuestion` branch: the session is found by owner identity. -/
def setQuestionHandler (st : ServerState) (socket : SocketId) (textJs : Js) :
    ServerState × List Output :=
  match st.sessions.find? (fun p => p.2.owner == socket) with
  | none => (st, [Output.msg socket (Event.errorMsg "Not a host")])
  | some (sid, s) =>
      let text := strOf textJs
      let s1 := { s with question := text }
      ({ st with sessions := mapSet st.sessions sid s1 },
       broadcast s1 (Event.question text))

/-- The `answer` branch (the database insert has no protocol effect). -/
def answerHandler (st : ServerState) (socket : SocketId)
    (sessionIdJs nameJs codeJs : Js) : ServerState × List Output :=
  let sid := jsToUpper (strOf sessionIdJs)
  let name := strTrimOf nameJs
  let code := strOf codeJs
  match mapGet? st.sessions sid with
  | none => (st, [])
  | some s => (st, [Output.msg s.owner (Event.answerReceived name code)])

/-- The `leave` branch: broadcasts only when `s.users.delete(name)` removed an
entry; always resets the socket's metadata. -/
def leaveHandler (st : ServerState) (socket : SocketId) (sessionIdJs nameJs : Js) :
    ServerState × List Output :=
  let m := st.socketMeta socket
  let sid := jsToUpper ((jsOr sessionIdJs (jsOr (jsOfOpt m.sid) (.str ""))).toStr)
  let name := jsTrim ((jsOr nameJs (jsOr (jsOfOpt m.name) (.str ""))).toStr)
  let reset : ServerState → ServerState :=
    fun s => { s with socketMeta := setMeta3 s.socketMeta socket Meta.fresh }
  match mapGet? st.sessions sid with
  | none => (reset st, [])
  | some s =>
      if name == "" then (reset st, [])
      else if mapHas s.users name then
        let s1 := { s with users := mapDelete s.users name }
        (reset { st with sessions := mapSet st.sessions sid s1 },
         broadcast s1 (Event.userLeft sid name)
           ++ broadcast s1 (Event.usersList sid (usersPayload s1)))
      else (reset st, [])

/-- The `close` branch: first session owned by this socket is closed; its
members are sent `sessionClosed` and then disconnected by the server. -/
def closeHandler (st : ServerState) (socket : SocketId) : ServerState × List Output :=
  match st.sessions.find? (fun p => p.2.owner == socket) with
  | none => (st, [])
  | some (sid, s) =>
      ({ sessions := mapDelete st.sessions sid,
         socketMeta := setMeta3 st.socketMeta socket Meta.fresh },
       broadcast s Event.sessionClosed
         ++ (mapValues s.users).map fun u => Output.disconnect u.1)

/-- The `feedback` branch. -/
def feedbackHandler (st : ServerState) (socket : SocketId)
    (sessionIdJs toJs textJs : Js) : ServerState × List Output :=
  let sid := jsToUpper (strOf sessionIdJs)
  let toName := strTrimOf toJs
  let text := strOf textJs
  match mapGet? st.sessions sid with
  | none => (st, [])
  | some s =>
      if toName == "" || text == "" then (st, [])
      else
        match mapGet? s.users toName with
        | none => (st, [])
        | some u => (st, [Output.msg u.1 (Event.feedback text)])

/-- The `socket.on('close')` cleanup of the third snapshot. -/
def socketCloseHandler (st : ServerState) (socket : SocketId) : ServerState × List Output :=
  let m := st.socketMeta socket
  if !optTruthy m.sid then (st, [])
  else
    let sid := m.sid.getD ""
    match mapGet? st.sessions sid with
    | none => (st, [])
    | some s =>
        if m.role == some "host" then
          ({ st with sessions := mapDelete st.sessions sid },
           broadcast s Event.sessionClosed
             ++ (mapValues s.users).map fun u => Output.disconnect u.1)
        else if (m.role == some "student") && optTruthy m.name then
          let name := m.name.getD ""
          if mapHas s.users name then
            let s1 := { s with users := mapDelete s.users name }
            ({ st with sessions := mapSet st.sessions sid s1 },
             broadcast s1 (Event.userLeft sid name)
               ++ broadcast s1 (Event.usersList sid (usersPayload s1)))
          else (st, [])
        else (st, [])

/-- A decoded inbound message of the third snapshot. -/
structure Msg where
  type : Js
  sessionId : Js
  name : Js
  machineId : Js
  text : Js
  code : Js
  /-- the `to` field (`to` is reserved in Lean) -/
  toUser : Js
  deriving DecidableEq, Repr

/-- The `socket.on('message')` entry point: a frame that fails to decode is
silently dropped (`catch { return; }`), and an unrecognized `type` falls
through every branch with no output. -/
def handleMessage (st : ServerState) (socket : SocketId) (decoded : Option Msg) :
    ServerState × List Output :=
  match decoded with
  | none => (st, [])
  | some m =>
      if m.type == Js.str "create" then createHandler st socket m.sessionId m.machineId
      else if m.type == Js.str "join" then
        joinHandler st socket m.sessionId m.name m.machineId
      else if m.type == Js.str "setQuestion" then setQuestionHandler st socket m.text
      else if m.type == Js.str "answer" then
        answerHandler st socket m.sessionId m.name m.code
      else if m.type == Js.str "leave" then leaveHandler st socket m.sessionId m.name
      else if m.type == Js.str "close" then closeHandler st socket
      else if m.type == Js.str "feedback" then
        feedbackHandler st socket m.sessionId m.toUser m.text
      else (st, [])

end V3

/-! ### Extractors and concrete states used by the claim theorems -/

/-- Sessions map of a non-throwing first-snapshot handler result. -/
def okSessions? (r : Except JsAbort (V1.ServerState × List Output)) :
    Option (List (String × V1.Session)) :=
  match r with
  | .ok p => some p.1.sessions
  | .error _ => none

/-- Output list of a non-throwing first-snapshot handler result. -/
def okOutputs? (r : Except JsAbort (V1.ServerState × List Output)) : Option (List Output) :=
  match r with
  | .ok p => some p.2
  | .error _ => none

/-- State of a non-throwing first-snapshot handler result (with a fallback
for the throwing case, never hit where this is used). -/
def okStateD (r : Except JsAbort (V1.ServerState × List Output)) (d : V1.ServerState) :
    V1.ServerState :=
  match r with
  | .ok p => p.1
  | .error _ => d

/-- `true` iff a `Js` value is a string or falsy, so that
`(x || '').toUpperCase()` cannot throw on it. -/
def stringOrFalsy : Js → Bool
  | .str _ => true
  | j => !j.truthy

/-- No output in the list is a server-initiated disconnect. -/
def noDisconnects (l : List Output) : Bool := l.all fun o => !o.isDisconnect

/-- A fresh first-snapshot server state: no sessions, no metadata, all open. -/
def emptyV1 : V1.ServerState := ⟨[], fun _ => ⟨none, none, none⟩, fun _ => true⟩

/-- First-snapshot state whose socket 0 is host of session `"A"`. -/
def c4st : V1.ServerState :=
  ⟨[("A", ⟨0, [], ""⟩)],
   fun w => if w = 0 then ⟨some "host", some "A", none⟩ else ⟨none, none, none⟩,
   fun _ => true⟩

/-- Third-snapshot state: session `"S"` owned by socket 0 (machine `"M0"`)
with one member `"ana"` on socket 1 (machine `"M1"`). -/
def c2st3 : V3.ServerState :=
  ⟨[("S", ⟨"S", 0, "M0", [("ana", (1, "M1"))], ""⟩)], fun _ => V3.Meta.fresh⟩

/-- First-snapshot state reached from `emptyV1` after socket 0 creates
session `"S"`. -/
def c6created : V1.ServerState := okStateD (V1.createSession [] emptyV1 0 (Js.str "S")) emptyV1

/-- `c6created` after socket 0 (the host) sends `leave`: the session is gone
but socket 0's metadata still says host of `"S"`. -/
def c6stale : V1.ServerState := (V1.cleanupSocket c6created 0).1

/-- First-snapshot state: session `"S"` with host socket 0 and one member
`"ana"` on socket 1, both bound. -/
def c7st : V1.ServerState :=
  ⟨[("S", ⟨0, [("ana", 1)], ""⟩)],
   fun w =>
     if w = 0 then ⟨some "host", some "S", none⟩
     else if w = 1 then ⟨some "student", some "S", some "ana"⟩
     else ⟨none, none, none⟩,
   fun _ => true⟩

/-- Third-snapshot state: session `"S"` owned by socket 0 with member `"ana"`
on socket 1, and socket 0's metadata bound as host. -/
def c7st3 : V3.ServerState :=
  ⟨[("S", ⟨"S", 0, "M0", [("ana", (1, "M1"))], ""⟩)],
   fun w =>
     if w = 0 then ⟨some "S", none, some "host", some "M0", true⟩ else V3.Meta.fresh⟩

/-- Third-snapshot state for the guarded-leave witness: session `"S"` owned
by socket 0 with one member `"ana"` on socket 1. -/
def c8st3 : V3.ServerState :=
  ⟨[("S", ⟨"S", 0, "M0", [("ana", (1, "M1"))], ""⟩)], fun _ => V3.Meta.fresh⟩

/-- First-snapshot state where name `"ana"` of session `"S"` is bound to
socket 5, while socket 7's stale metadata claims to be member `"ana"`. -/
def c8st : V1.ServerState :=
  ⟨[("S", ⟨0, [("ana", 5)], ""⟩)],
   fun w => if w = 7 then ⟨some "student", some "S", some "ana"⟩ else ⟨none, none, none⟩,
   fun _ => true⟩

/-- First-snapshot state for the double-cleanup witness: session `"S"`,
host socket 0, member `"ana"` on socket 1. -/
def c10st : V1.ServerState :=
  ⟨[("S", ⟨0, [("ana", 1)], ""⟩)],
   fun w =>
     if w = 0 then ⟨some "host", some "S", none⟩
     else if w = 1 then ⟨some "student", some "S", some "ana"⟩
     else ⟨none, none, none⟩,
   fun _ => true⟩

/-- First-snapshot state for the close-then-command theorem's witness:
session `"S"`, host socket 0, member `"ana"` on socket 1. -/
def c5st : V1.ServerState :=
  ⟨[("S", ⟨0, [("ana", 1)], ""⟩)],
   fun w =>
     if w = 0 then ⟨some "host", some "S", none⟩
     else if w = 1 then ⟨some "student", some "S", some "ana"⟩
     else ⟨none, none, none⟩,
   fun _ => true⟩

/-- First-snapshot state for the join-suffixing witness: session `"S"`,
host socket 0, member `"ana"` on socket 1. -/
def c2st : V1.ServerState :=
  ⟨[("S", ⟨0, [("ana", 1)], ""⟩)],
   fun w =>
     if w = 0 then ⟨some "host", some "S", none⟩
     else if w = 1 then ⟨some "student", some "S", some "ana"⟩
     else ⟨none, none, none⟩,
   fun _ => true⟩

/-- First-snapshot state for the create-uniqueness witness: session `"AB"`
hosted by socket 3. -/
def c3st : V1.ServerState :=
  ⟨[("AB", ⟨3, [], ""⟩)],
   fun w => if w = 3 then ⟨some "host", some "AB", none⟩ else ⟨none, none, none⟩,
   fun _ => true⟩

/-! ### Helper lemmas about the embedding primitives -/

theorem digitChar_toNat {d : Nat} (hd : d < 10) : (Nat.digitChar d).toNat = 48 + d := by
  interval_cases d <;> rfl

theorem foldl_digits_eq_ofDigits (l : List Nat) (hl : ∀ d ∈ l, d < 10) :
    ((l.reverse.map Nat.digitChar).foldl (fun a c => a * 10 + (c.toNat - 48)) 0)
      = Nat.ofDigits 10 l := by
  induction l with
  | nil => simp [Nat.ofDigits]
  | cons x xs ih =>
      have hx : x < 10 := hl x (List.mem_cons_self _ _)
      have hxs : ∀ d ∈ xs, d < 10 := fun d hd => hl d (List.mem_cons_of_mem _ hd)
      have : (x :: xs).reverse.map Nat.digitChar
          = xs.reverse.map Nat.digitChar ++ [Nat.digitChar x] := by
        simp
      rw [this, List.foldl_append, ih hxs, Nat.ofDigits_cons]
      simp only [List.foldl_cons, List.foldl_nil]
      rw [digitChar_toNat hx]
      omega

theorem natOfStr_natStr (n : Nat) : natOfStr (natStr n) = n := by
  have hdig : ∀ d ∈ Nat.digits 10 n, d < 10 :=
    fun d hd => Nat.digits_lt_base (by norm_num) hd
  have h2 := foldl_digits_eq_ofDigits (Nat.digits 10 n) hdig
  rw [Nat.ofDigits_digits] at h2
  exact h2

theorem natStr_injective : Function.Injective natStr :=
  Function.LeftInverse.injective natOfStr_natStr

theorem natStr_ne_empty {n : Nat} (hn : n ≠ 0) : natStr n ≠ "" := by
  intro h
  have hd : Nat.digits 10 n ≠ [] := Nat.digits_ne_nil_iff_ne_zero.mpr hn
  have : (natStr n).data = [] := by rw [h]
  have : ((Nat.digits 10 n).reverse).map Nat.digitChar = [] := this
  simp at this
  exact hd this

theorem mapGet?_mapSet_self {α : Type} (m : List (String × α)) (k : String) (v : α) :
    mapGet? (mapSet m k v) k = some v := by
  induction m with
  | nil => simp [mapSet, mapGet?]
  | cons p rest ih =>
      obtain ⟨k', w⟩ := p
      by_cases h : k' = k <;> simp [mapSet, mapGet?, h, ih]

theorem mapGet?_mapSet_ne {α : Type} (m : List (String × α)) {k key : String} (v : α)
    (h : k ≠ key) : mapGet? (mapSet m k v) key = mapGet? m key := by
  induction m with
  | nil => simp [mapSet, mapGet?, h]
  | cons p rest ih =>
      obtain ⟨k', w⟩ := p
      by_cases h' : k' = k <;> simp [mapSet, mapGet?, h', h, ih]

theorem mapGet?_eq_some_mem {α : Type} {m : List (String × α)} {k : String} {v : α}
    (h : mapGet? m k = some v) : k ∈ mapKeys m := by
  induction m with
  | nil => simp [mapGet?] at h
  | cons p rest ih =>
      obtain ⟨k', w⟩ := p
      by_cases hk : k' = k
      · subst hk
        exact List.mem_cons_self _ _
      · simp [mapGet?, hk] at h
        exact List.mem_cons_of_mem _ (ih h)

theorem mapHas_true_mem {α : Type} {m : List (String × α)} {k : String}
    (h : mapHas m k = true) : k ∈ mapKeys m := by
  rw [mapHas, Option.isSome_iff_exists] at h
  obtain ⟨v, hv⟩ := h
  exact mapGet?_eq_some_mem hv

theorem mem_mapHas {α : Type} {m : List (String × α)} {k : String}
    (h : k ∈ mapKeys m) : mapHas m k = true := by
  induction m with
  | nil => simp [mapKeys] at h
  | cons p rest ih =>
      obtain ⟨k', w⟩ := p
      by_cases hk : k' = k
      · subst hk; simp [mapHas, mapGet?]
      · simp [mapKeys, hk] at h
        rcases h with h | h
        · exact absurd h.symm hk
        · have := ih (by simpa [mapKeys] using h)
          simpa [mapHas, mapGet?, hk] using this

theorem mapHas_false_not_mem {α : Type} {m : List (String × α)} {k : String}
    (h : mapHas m k = false) : k ∉ mapKeys m := by
  intro hmem
  rw [mem_mapHas hmem] at h
  simp at h

theorem mapKeys_mapSet_of_not_has {α : Type} {m : List (String × α)} {k : String} (v : α)
    (h : mapHas m k = false) : mapKeys (mapSet m k v) = mapKeys m ++ [k] := by
  induction m with
  | nil => simp [mapSet, mapKeys]
  | cons p rest ih =>
      obtain ⟨k', w⟩ := p
      by_cases hk : k' = k
      · subst hk; simp [mapHas, mapGet?] at h
      · have h' : mapHas rest k = false := by
          simpa [mapHas, mapGet?, hk] using h
        simp [mapSet, mapKeys, hk] at ih ⊢
        exact ih h'

theorem mapKeys_mapSet_of_get {α : Type} {m : List (String × α)} {k : String} {w : α} (v : α)
    (h : mapGet? m k = some w) : mapKeys (mapSet m k v) = mapKeys m := by
  induction m with
  | nil => simp [mapGet?] at h
  | cons p rest ih =>
      obtain ⟨k', w'⟩ := p
      by_cases hk : k' = k
      · subst hk; simp [mapSet, mapKeys]
      · simp [mapGet?, hk] at h
        have hrest := ih h
        simp [mapSet, mapKeys, hk] at hrest ⊢
        exact hrest

theorem mapSet_get_self {α : Type} {m : List (String × α)} {k : String} {v : α}
    (h : mapGet? m k = some v) : mapSet m k v = m := by
  induction m with
  | nil => simp [mapGet?] at h
  | cons p rest ih =>
      obtain ⟨k', w⟩ := p
      by_cases hk : k' = k
      · subst hk
        simp [mapGet?] at h
        simp [mapSet, h]
      · simp [mapGet?, hk] at h
        simp [mapSet, hk, ih h]

theorem mapGet?_mapDelete_self {α : Type} {m : List (String × α)} {k : String}
    (h : (mapKeys m).Nodup) : mapGet? (mapDelete m k) k = none := by
  induction m with
  | nil => simp [mapDelete, mapGet?]
  | cons p rest ih =>
      obtain ⟨k', w⟩ := p
      simp [mapKeys] at h
      by_cases hk : k' = k
      · subst hk
        simp [mapDelete]
        cases hrest : mapGet? rest k' with
        | none => rfl
        | some v => exact absurd (mapGet?_eq_some_mem hrest) (by simpa [mapKeys] using h.1)
      · simp [mapDelete, hk, mapGet?]
        exact ih h.2

theorem mapGet?_mapDelete_ne {α : Type} (m : List (String × α)) {k key : String}
    (h : k ≠ key) : mapGet? (mapDelete m k) key = mapGet? m key := by
  induction m with
  | nil => simp [mapDelete]
  | cons p rest ih =>
      obtain ⟨k', w⟩ := p
      by_cases hk : k' = k
      · subst hk; simp [mapDelete, mapGet?, h]
      · simp [mapDelete, hk, mapGet?, ih]

theorem mapKeys_mapDelete_sublist {α : Type} (m : List (String × α)) (k : String) :
    (mapKeys (mapDelete m k)).Sublist (mapKeys m) := by
  induction m with
  | nil => exact List.Sublist.refl _
  | cons p rest ih =>
      obtain ⟨k', w⟩ := p
      by_cases hk : k' = k
      · subst hk
        rw [show mapDelete ((k', w) :: rest) k' = rest from by simp [mapDelete]]
        exact List.sublist_cons_self _ _
      · rw [show mapDelete ((k', w) :: rest) k = (k', w) :: mapDelete rest k from by
          simp [mapDelete, hk]]
        exact List.Sublist.cons₂ _ ih

theorem mapKeys_mapDelete_nodup {α : Type} {m : List (String × α)} (k : String)
    (h : (mapKeys m).Nodup) : (mapKeys (mapDelete m k)).Nodup :=
  (mapKeys_mapDelete_sublist m k).nodup h

theorem mapKeys_mapSet_nodup {α : Type} {m : List (String × α)} {k : String} (v : α)
    (h : (mapKeys m).Nodup) : (mapKeys (mapSet m k v)).Nodup := by
  cases hh : mapHas m k with
  | false =>
      rw [mapKeys_mapSet_of_not_has v hh]
      have hk : k ∉ mapKeys m := mapHas_false_not_mem hh
      simp [List.nodup_append, h, hk]
  | true =>
      rw [mapHas, Option.isSome_iff_exists] at hh
      obtain ⟨w, hw⟩ := hh
      rw [mapKeys_mapSet_of_get v hw]
      exact h

theorem findFresh_spec {gen : List String} {sessions : List (String × V1.Session)}
    {sid : String} (h : V1.findFresh gen sessions = some sid) :
    mapHas sessions sid = false ∧ sid ∈ gen := by
  induction gen with
  | nil => simp [V1.findFresh] at h
  | cons g rest ih =>
      by_cases hg : mapHas sessions g = true
      · simp [V1.findFresh, hg] at h
        obtain ⟨h1, h2⟩ := ih h
        exact ⟨h1, List.mem_cons_of_mem _ h2⟩
      · simp [V1.findFresh, hg] at h
        subst h
        exact ⟨by simpa using hg, List.mem_cons_self _ _⟩

theorem upperTrimOrThrow_ok_of_stringOrFalsy {j : Js} (h : stringOrFalsy j = true) :
    ∃ s, upperTrimOrThrow j = .ok s := by
  cases j with
  | str s =>
      by_cases hs : s = ""
      · exact ⟨jsTrim (jsToUpper ""), by simp [upperTrimOrThrow, jsOr, Js.truthy, hs]⟩
      · exact ⟨jsTrim (jsToUpper s), by simp [upperTrimOrThrow, jsOr, Js.truthy, hs]⟩
  | num n =>
      have hn : n = 0 := by simpa [stringOrFalsy, Js.truthy] using h
      exact ⟨jsTrim (jsToUpper ""), by simp [upperTrimOrThrow, jsOr, Js.truthy, hn]⟩
  | bool b =>
      have hb : b = false := by simpa [stringOrFalsy, Js.truthy] using h
      exact ⟨jsTrim (jsToUpper ""), by simp [upperTrimOrThrow, jsOr, Js.truthy, hb]⟩
  | null => exact ⟨jsTrim (jsToUpper ""), rfl⟩
  | undef => exact ⟨jsTrim (jsToUpper ""), rfl⟩
  | obj => simp [stringOrFalsy, Js.truthy] at h
  | arr => simp [stringOrFalsy, Js.truthy] at h

theorem mem_broadcastSession_is_msg {st : V1.ServerState} {sid : String} {ev : Event}
    {ex : Option SocketId} {o : Output} (h : o ∈ V1.broadcastSession st sid ev ex) :
    ∃ t, o = Output.msg t ev := by
  unfold V1.broadcastSession at h
  cases hget : mapGet? st.sessions sid with
  | none => rw [hget] at h; simp at h
  | some s =>
      rw [hget] at h
      rcases List.mem_append.mp h with h1 | h2
      · by_cases hc : (st.isOpen s.host && (some s.host != ex)) = true
        · rw [if_pos hc] at h1
          simp at h1
          exact ⟨s.host, h1⟩
        · rw [if_neg hc] at h1
          simp at h1
      · obtain ⟨sock, _, hf⟩ := List.mem_filterMap.mp h2
        by_cases hc : (st.isOpen sock && (some sock != ex)) = true
        · rw [if_pos hc] at hf
          exact ⟨sock, (Option.some_inj.mp hf).symm⟩
        · rw [if_neg hc] at hf
          simp at hf

theorem noDisconnects_broadcastSession (st : V1.ServerState) (sid : String) (ev : Event)
    (ex : Option SocketId) : noDisconnects (V1.broadcastSession st sid ev ex) = true := by
  rw [noDisconnects, List.all_eq_true]
  intro o ho
  obtain ⟨t, rfl⟩ := mem_broadcastSession_is_msg ho
  rfl

theorem noDisconnects_pushUsersList (st : V1.ServerState) (sid : String) :
    noDisconnects (V1.pushUsersList st sid) = true := by
  unfold V1.pushUsersList
  cases mapGet? st.sessions sid with
  | none => rfl
  | some s => exact noDisconnects_broadcastSession ..

theorem noDisconnects_append {l₁ l₂ : List Output} (h₁ : noDisconnects l₁ = true)
    (h₂ : noDisconnects l₂ = true) : noDisconnects (l₁ ++ l₂) = true := by
  rw [noDisconnects] at h₁ h₂ ⊢
  rw [List.all_append, h₁, h₂]
  rfl

theorem noDisconnects_cons_msg {t : SocketId} {ev : Event} {l : List Output}
    (h : noDisconnects l = true) : noDisconnects (Output.msg t ev :: l) = true := by
  rw [noDisconnects] at h ⊢
  rw [List.all_cons, h]
  rfl

theorem natStr_length_pos {n : Nat} (hn : n ≠ 0) : 0 < (natStr n).length := by
  have hd : Nat.digits 10 n ≠ [] := Nat.digits_ne_nil_iff_ne_zero.mpr hn
  have : (natStr n).length = (Nat.digits 10 n).length := by
    simp [natStr, String.length]
  rw [this]
  exact List.length_pos.mpr hd

theorem candAt_inj (name : String) : Function.Injective (V1.candAt name) := by
  have hlen : ∀ k : Nat, name.length < (V1.candAt name (k + 1)).length := by
    intro k
    have h2 : 0 < (natStr (k + 2)).length := natStr_length_pos (by omega)
    simp only [V1.candAt, String.length_append]
    have : ("-" : String).length = 1 := rfl
    omega
  intro a b h
  match a, b with
  | 0, 0 => rfl
  | 0, k + 1 =>
      have hl := hlen k
      rw [← h] at hl
      simp [V1.candAt] at hl
  | j + 1, 0 =>
      have hl := hlen j
      rw [h] at hl
      simp [V1.candAt] at hl
  | j + 1, k + 1 =>
      simp only [V1.candAt] at h
      have hdata := congrArg String.data h
      rw [String.data_append, String.data_append, String.data_append,
        String.data_append, List.append_assoc, List.append_assoc] at hdata
      have h1 := List.append_cancel_left (List.append_cancel_left hdata)
      have h2 : natStr (j + 2) = natStr (k + 2) := by
        have e1 : natStr (j + 2) = String.mk (natStr (j + 2)).data := rfl
        have e2 : natStr (k + 2) = String.mk (natStr (k + 2)).data := rfl
        rw [e1, e2, h1]
      have := natStr_injective h2
      omega

theorem suffixFrom_none_all_taken {users : List (String × SocketId)} {name : String} :
    ∀ {fuel k}, V1.suffixFrom users name fuel k = none →
      ∀ j, j < fuel → mapHas users (V1.candAt name (k + j)) = true := by
  intro fuel
  induction fuel with
  | zero => intro k _ j hj; omega
  | succ fuel ih =>
      intro k h j hj
      by_cases hk : mapHas users (V1.candAt name k) = true
      · rw [V1.suffixFrom, if_pos hk] at h
        cases j with
        | zero => simpa using hk
        | succ j =>
            have := ih h j (by omega)
            have harith : k + 1 + j = k + (j + 1) := by omega
            rwa [harith] at this
      · rw [V1.suffixFrom, if_neg hk] at h
        exact absurd h (by simp)

theorem pickUnique_isSome {users : List (String × SocketId)} (name : String)
    (hnd : (mapKeys users).Nodup) : V1.pickUnique users name ≠ none := by
  intro h
  have hall : ∀ j, j < users.length + 1 →
      mapHas users (V1.candAt name (0 + j)) = true :=
    fun j hj => suffixFrom_none_all_taken h j hj
  set L := (List.range (users.length + 1)).map (V1.candAt name) with hL
  have hLnd : L.Nodup := (List.nodup_range _).map (candAt_inj name)
  have hsub : ∀ x ∈ L, x ∈ mapKeys users := by
    intro x hx
    rw [hL] at hx
    obtain ⟨j, hj, rfl⟩ := List.mem_map.mp hx
    have hj' := List.mem_range.mp hj
    have := hall j hj'
    simpa using mapHas_true_mem this
  have hcard1 : L.toFinset.card = L.length := List.toFinset_card_of_nodup hLnd
  have hcard2 : L.toFinset ⊆ (mapKeys users).toFinset := by
    intro x hx
    exact List.mem_toFinset.mpr (hsub x (List.mem_toFinset.mp hx))
  have hcard3 : L.toFinset.card ≤ (mapKeys users).toFinset.card :=
    Finset.card_le_card hcard2
  have hcard4 : (mapKeys users).toFinset.card ≤ (mapKeys users).length :=
    List.toFinset_card_le _
  have hlen : L.length = users.length + 1 := by simp [hL]
  have hklen : (mapKeys users).length = users.length := by simp [mapKeys]
  omega

theorem suffixFrom_some_spec {users : List (String × SocketId)} {name : String} :
    ∀ {fuel k finalName}, V1.suffixFrom users name fuel k = some finalName →
      mapHas users finalName = false ∧ ∃ j, finalName = V1.candAt name j := by
  intro fuel
  induction fuel with
  | zero => intro k finalName h; exact absurd h (by simp [V1.suffixFrom])
  | succ fuel ih =>
      intro k finalName h
      by_cases hk : mapHas users (V1.candAt name k) = true
      · rw [V1.suffixFrom, if_pos hk] at h
        exact ih h
      · rw [V1.suffixFrom, if_neg hk] at h
        obtain rfl : V1.candAt name k = finalName := by simpa using h
        exact ⟨by simpa using hk, k, rfl⟩

theorem unbindAll_role (l : List SocketId) (f : SocketId → V1.Meta) (x : SocketId) :
    ((V1.unbindAll f l) x).role = (f x).role := by
  induction l generalizing f with
  | nil => rfl
  | cons a l ih =>
      rw [V1.unbindAll, List.foldl_cons]
      rw [show List.foldl (fun g sock => V1.updMeta g sock fun m => { m with sid := none })
          (V1.updMeta f a fun m => { m with sid := none }) l
          = V1.unbindAll (V1.updMeta f a fun m => { m with sid := none }) l from rfl]
      rw [ih]
      by_cases hx : x = a <;> simp [V1.updMeta, hx]

theorem unbindAll_sid_none_preserved {l : List SocketId} {f : SocketId → V1.Meta}
    {x : SocketId} (h : (f x).sid = none) : ((V1.unbindAll f l) x).sid = none := by
  induction l generalizing f with
  | nil => exact h
  | cons a l ih =>
      rw [V1.unbindAll, List.foldl_cons]
      rw [show List.foldl (fun g sock => V1.updMeta g sock fun m => { m with sid := none })
          (V1.updMeta f a fun m => { m with sid := none }) l
          = V1.unbindAll (V1.updMeta f a fun m => { m with sid := none }) l from rfl]
      apply ih
      by_cases hx : x = a <;> simp [V1.updMeta, hx, h]

theorem unbindAll_sid_none {l : List SocketId} {f : SocketId → V1.Meta} {x : SocketId}
    (hx : x ∈ l) : ((V1.unbindAll f l) x).sid = none := by
  induction l generalizing f with
  | nil => simp at hx
  | cons a l ih =>
      rw [V1.unbindAll, List.foldl_cons]
      rw [show List.foldl (fun g sock => V1.updMeta g sock fun m => { m with sid := none })
          (V1.updMeta f a fun m => { m with sid := none }) l
          = V1.unbindAll (V1.updMeta f a fun m => { m with sid := none }) l from rfl]
      rcases List.mem_cons.mp hx with rfl | hx'
      · exact unbindAll_sid_none_preserved (by simp [V1.updMeta])
      · exact ih hx'

theorem noDisconnects_setQuestion (st : V1.ServerState) (ws : SocketId) (textJs : Js) :
    noDisconnects (V1.setQuestion st ws textJs).2 = true := by
  unfold V1.setQuestion
  cases hc : (((st.meta ws).role != some "host") || !optTruthy (st.meta ws).sid) with
  | true => simp [hc, noDisconnects, Output.isDisconnect]
  | false =>
      simp only [hc, Bool.false_eq_true, if_false]
      cases mapGet? st.sessions ((st.meta ws).sid.getD "") with
      | none => rfl
      | some s => exact noDisconnects_broadcastSession ..

theorem noDisconnects_handleAnswer (st : V1.ServerState) (ws : SocketId) (codeJs : Js) :
    noDisconnects (V1.handleAnswer st ws codeJs).2 = true := by
  unfold V1.handleAnswer
  cases hc : (((st.meta ws).role != some "student") || !optTruthy (st.meta ws).sid
      || !optTruthy (st.meta ws).name) with
  | true => simp [hc, noDisconnects]
  | false =>
      simp only [hc, Bool.false_eq_true, if_false]
      cases mapGet? st.sessions ((st.meta ws).sid.getD "") with
      | none => rfl
      | some s => simp [noDisconnects, Output.isDisconnect]

theorem noDisconnects_sendFeedback (st : V1.ServerState) (ws : SocketId) (toJs textJs : Js) :
    noDisconnects (V1.sendFeedback st ws toJs textJs).2 = true := by
  unfold V1.sendFeedback
  cases hc : (((st.meta ws).role != some "host") || !optTruthy (st.meta ws).sid) with
  | true => simp [hc, noDisconnects, Output.isDisconnect]
  | false =>
      simp only [hc, Bool.false_eq_true, if_false]
      cases mapGet? st.sessions ((st.meta ws).sid.getD "") with
      | none => rfl
      | some s =>
          cases ht : mapGet? s.users (strTrimOf toJs) with
          | none => simp [ht, noDisconnects, Output.isDisconnect]
          | some target => simp [ht, noDisconnects, Output.isDisconnect]

theorem noDisconnects_closeSession (st : V1.ServerState) (ws : SocketId) :
    noDisconnects (V1.closeSession st ws).2 = true := by
  unfold V1.closeSession
  cases hc : (((st.meta ws).role != some "host") || !optTruthy (st.meta ws).sid) with
  | true => simp [hc, noDisconnects]
  | false =>
      simp only [hc, Bool.false_eq_true, if_false]
      cases mapGet? st.sessions ((st.meta ws).sid.getD "") with
      | none => rfl
      | some s => exact noDisconnects_broadcastSession ..

theorem noDisconnects_cleanupSocket (st : V1.ServerState) (ws : SocketId) :
    noDisconnects (V1.cleanupSocket st ws).2 = true := by
  unfold V1.cleanupSocket
  cases hc : (!optTruthy (st.meta ws).sid) with
  | true => simp [hc, noDisconnects]
  | false =>
      simp only [hc, Bool.false_eq_true, if_false]
      cases mapGet? st.sessions ((st.meta ws).sid.getD "") with
      | none => rfl
      | some s =>
          cases hh : ((st.meta ws).role == some "host") with
          | true =>
              simp only [hh, if_true]
              exact noDisconnects_broadcastSession ..
          | false =>
              simp only [hh, Bool.false_eq_true, if_false]
              cases hs : (((st.meta ws).role == some "student")
                  && optTruthy (st.meta ws).name) with
              | true =>
                  simp only [hs, if_true]
                  exact noDisconnects_append (noDisconnects_broadcastSession ..)
                    (noDisconnects_pushUsersList ..)
              | false => simp [hs, noDisconnects]

theorem createSession_safe (gen : List String) (st : V1.ServerState) (ws : SocketId)
    (proposed : Js) (h : stringOrFalsy proposed = true) :
    V1.createSession gen st ws proposed ≠ .error JsAbort.typeError
      ∧ (∀ st1 outs, V1.createSession gen st ws proposed = .ok (st1, outs) →
          noDisconnects outs = true) := by
  obtain ⟨sid0, hok⟩ := upperTrimOrThrow_ok_of_stringOrFalsy h
  have hred : V1.createSession gen st ws proposed
      = (match (if sid0 = "" ∨ mapHas st.sessions sid0 = true then
            V1.findFresh gen st.sessions else some sid0) with
          | none => Except.error JsAbort.diverge
          | some sid =>
            Except.ok
              ({ st with
                  sessions := mapSet st.sessions sid ⟨ws, [], ""⟩,
                  meta := V1.updMeta st.meta ws fun m =>
                    { m with role := some "host", sid := some sid } },
               Output.msg ws (Event.created sid) :: V1.pushUsersList
                 { st with
                   sessions := mapSet st.sessions sid ⟨ws, [], ""⟩,
                   meta := V1.updMeta st.meta ws fun m =>
                     { m with role := some "host", sid := some sid } } sid)) := by
    simp only [V1.createSession, hok]
  rw [hred]
  cases hm : (if sid0 = "" ∨ mapHas st.sessions sid0 = true then
      V1.findFresh gen st.sessions else some sid0) with
  | none => exact ⟨by simp, fun st1 outs hc => by simp at hc⟩
  | some sid =>
      refine ⟨by simp, ?_⟩
      intro st1 outs hc
      simp only [Except.ok.injEq, Prod.mk.injEq] at hc
      rw [← hc.2]
      exact noDisconnects_cons_msg (noDisconnects_pushUsersList ..)

theorem joinSession_safe (st : V1.ServerState) (ws : SocketId) (sidJs nameJs : Js)
    (h : stringOrFalsy sidJs = true) :
    V1.joinSession st ws sidJs nameJs ≠ .error JsAbort.typeError
      ∧ (∀ st1 outs, V1.joinSession st ws sidJs nameJs = .ok (st1, outs) →
          noDisconnects outs = true) := by
  obtain ⟨sid, hok⟩ := upperTrimOrThrow_ok_of_stringOrFalsy h
  simp only [V1.joinSession, hok]
  cases hlk : mapGet? st.sessions sid with
  | none =>
      refine ⟨by simp, ?_⟩
      intro st1 outs hc
      simp only [Except.ok.injEq, Prod.mk.injEq] at hc
      rw [← hc.2]
      simp [noDisconnects, Output.isDisconnect]
  | some s =>
      dsimp only
      by_cases hcnd : sid = "" ∨ strTrimOf nameJs = ""
      · rw [if_pos hcnd]
        refine ⟨by simp, ?_⟩
        intro st1 outs hc
        simp only [Except.ok.injEq, Prod.mk.injEq] at hc
        rw [← hc.2]
        simp [noDisconnects, Output.isDisconnect]
      · rw [if_neg hcnd]
        cases hp : V1.pickUnique s.users (strTrimOf nameJs) with
        | none => exact ⟨by simp, fun st1 outs hc => by simp at hc⟩
        | some finalName =>
            refine ⟨by simp, ?_⟩
            intro st1 outs hc
            simp only [Except.ok.injEq, Prod.mk.injEq] at hc
            rw [← hc.2]
            exact noDisconnects_cons_msg (noDisconnects_append
              (noDisconnects_broadcastSession ..) (noDisconnects_pushUsersList ..))

/-! ### Claim theorems -/

/-- C1 (counterexample): the claim says a frame whose payload fails to decode
produces no message at all to the sender; in the first snapshot `safeParse`
returns `null` and the dispatch answers with an `error` event `Bad message`. -/
theorem c1_counterexample :
    V1.handleMessage [] emptyV1 0 none
      = Except.ok (emptyV1, [Output.msg 0 (Event.errorMsg "Bad message")]) := rfl

/-- C1 (amended): in the first and second snapshots a malformed frame is
answered with an `error` event `Bad message` to the sender; only in the third
snapshot is it silently dropped with no emission and no state change. -/
theorem c1_amended (gen : List String) (st : V1.ServerState) (st3 : V3.ServerState)
    (ws : SocketId) :
    V1.handleMessage gen st ws none
        = Except.ok (st, [Output.msg ws (Event.errorMsg "Bad message")])
      ∧ V3.handleMessage st3 ws none = (st3, []) :=
  ⟨rfl, rfl⟩

/-- C9 (counterexample): the claim says every handler is total over arbitrary
decoded JSON with non-string fields coerced; but a `create` whose `sessionId`
is the truthy non-string `true` reaches `(proposed || '').toUpperCase()` and
throws an uncaught `TypeError` in the first snapshot. -/
theorem c9_counterexample :
    V1.handleMessage [] emptyV1 0
        (some ⟨Js.str "create", Js.bool true, Js.undef, Js.undef, Js.undef, Js.undef⟩)
      = Except.error JsAbort.typeError := rfl

/-- C3: for a `create` whose proposed identifier coerces to the empty string
or to an already-registered identifier, `createSession` takes the next random
draw that does not collide with the registry, registers the session under it,
and the identifier returned in the `created` event is unique among the active
sessions (absent before, mapped to the new session after and keeping the
registry keys duplicate-free). -/
theorem c3_create_fresh_unique (gen : List String) (st : V1.ServerState) (ws : SocketId)
    (proposed : Js) (sid0 sid : String)
    (hcoerce : upperTrimOrThrow proposed = .ok sid0)
    (hbad : sid0 = "" ∨ mapHas st.sessions sid0 = true)
    (hfresh : V1.findFresh gen st.sessions = some sid) :
    mapHas st.sessions sid = false ∧ sid ∈ gen
      ∧ okSessions? (V1.createSession gen st ws proposed)
          = some (mapSet st.sessions sid ⟨ws, [], ""⟩)
      ∧ mapGet? (mapSet st.sessions sid ⟨ws, [], ""⟩) sid = some ⟨ws, [], ""⟩
      ∧ ((mapKeys st.sessions).Nodup → (mapKeys (mapSet st.sessions sid ⟨ws, [], ""⟩)).Nodup)
      ∧ (∃ rest, okOutputs? (V1.createSession gen st ws proposed)
          = some (Output.msg ws (Event.created sid) :: rest)) := by
  obtain ⟨hno, hmem⟩ := findFresh_spec hfresh
  have hrun :
      V1.createSession gen st ws proposed = .ok
        ({ st with
            sessions := mapSet st.sessions sid ⟨ws, [], ""⟩,
            meta := V1.updMeta st.meta ws fun m =>
              { m with role := some "host", sid := some sid } },
         Output.msg ws (Event.created sid)
           :: V1.pushUsersList
                { st with
                  sessions := mapSet st.sessions sid ⟨ws, [], ""⟩,
                  meta := V1.updMeta st.meta ws fun m =>
                    { m with role := some "host", sid := some sid } } sid) := by
    simp only [V1.createSession, hcoerce]
    rw [if_pos hbad, hfresh]
  exact ⟨hno, hmem, by rw [hrun]; rfl, mapGet?_mapSet_self ..,
    fun hnd => mapKeys_mapSet_nodup _ hnd, ⟨_, by rw [hrun]; rfl⟩⟩

/-- C3 (witness): in a registry already holding session `"AB"`, creating with
the taken proposal `"ab"` registers the fresh draw `"XYZ"` instead. -/
theorem c3_witness :
    mapHas c3st.sessions "XYZ" = false ∧ "XYZ" ∈ ["XYZ"]
      ∧ okSessions? (V1.createSession ["XYZ"] c3st 0 (Js.str "ab"))
          = some (mapSet c3st.sessions "XYZ" ⟨0, [], ""⟩)
      ∧ mapGet? (mapSet c3st.sessions "XYZ" ⟨0, [], ""⟩) "XYZ" = some ⟨0, [], ""⟩
      ∧ ((mapKeys c3st.sessions).Nodup → (mapKeys (mapSet c3st.sessions "XYZ" ⟨0, [], ""⟩)).Nodup)
      ∧ (∃ rest, okOutputs? (V1.createSession ["XYZ"] c3st 0 (Js.str "ab"))
          = some (Output.msg 0 (Event.created "XYZ") :: rest)) :=
  c3_create_fresh_unique ["XYZ"] c3st 0 (Js.str "ab") "AB" "XYZ" rfl
    (Or.inr (by decide)) (by decide)

/-- C4 (counterexample): the claim says `create` fails with an ownership
conflict whenever the sending connection is already bound as host elsewhere;
in the first snapshot socket 0, already host of `"A"`, creates `"B"` and the
registry gains the new session with no error. -/
theorem c4_counterexample :
    (c4st.meta 0).role = some "host" ∧ (c4st.meta 0).sid = some "A"
      ∧ mapGet? c4st.sessions "A" = some ⟨0, [], ""⟩
      ∧ okSessions? (V1.createSession [] c4st 0 (Js.str "B"))
          = some [("A", ⟨0, [], ""⟩), ("B", ⟨0, [], ""⟩)]
      ∧ okOutputs? (V1.createSession [] c4st 0 (Js.str "B"))
          = some [Output.msg 0 (Event.created "B"), Output.msg 0 (Event.usersList "B" [])] := by
  refine ⟨rfl, rfl, rfl, ?_, ?_⟩ <;> decide

/-- C4 (amended): the ownership-conflict rule exists only in the third
snapshot: there, a `create` from a socket that already owns a session (by
socket identity or machine id) yields exactly one error event and leaves the
registry unchanged; the first and second snapshots' `createSession` performs
no ownership check and registers a session even when the sender is already a
host. -/
theorem c4_amended :
    (∀ (st3 : V3.ServerState) (socket : SocketId) (sessionIdJs machineIdJs : Js),
      jsToUpper (strOf sessionIdJs) ≠ "" →
      (((mapValues st3.sessions).any fun s => s.owner == socket) = true
        ∨ ((mapValues st3.sessions).any fun s =>
            s.ownerMachineId == strTrimOf machineIdJs) = true) →
      V3.createHandler st3 socket sessionIdJs machineIdJs
        = (st3, [Output.msg socket
            (Event.errorMsg "You already own a session on this machine")]))
    ∧ (∀ (gen : List String) (st : V1.ServerState) (ws : SocketId) (proposed : Js)
        (sid0 : String),
      upperTrimOrThrow proposed = .ok sid0 → sid0 ≠ "" →
      mapHas st.sessions sid0 = false → (st.meta ws).role = some "host" →
      okSessions? (V1.createSession gen st ws proposed)
        = some (mapSet st.sessions sid0 ⟨ws, [], ""⟩)) := by
  constructor
  · intro st3 socket sessionIdJs machineIdJs hsid howner
    have h1 : (jsToUpper (strOf sessionIdJs) == "") = false := beq_eq_false_iff_ne.mpr hsid
    rcases howner with h2 | h2 <;> simp [V3.createHandler, h1, h2]
  · intro gen st ws proposed sid0 hcoerce hne hfree _hrole
    simp only [V1.createSession, hcoerce]
    rw [if_neg (by simp [hne, hfree])]
    rfl

/-- C4 (witness): both halves at concrete states: in `c2st3` socket 0 already
owns `"S"`, so creating `"T"` from socket 0 errors and changes nothing; in
`c4st` socket 0 hosts `"A"` yet successfully registers `"B"`. -/
theorem c4_witness :
    V3.createHandler c2st3 0 (Js.str "T") (Js.str "MX")
        = (c2st3, [Output.msg 0
            (Event.errorMsg "You already own a session on this machine")])
      ∧ okSessions? (V1.createSession [] c4st 0 (Js.str "B"))
        = some (mapSet c4st.sessions "B" ⟨0, [], ""⟩) :=
  ⟨c4_amended.1 c2st3 0 (Js.str "T") (Js.str "MX") (by decide) (Or.inl (by decide)),
   c4_amended.2 [] c4st 0 (Js.str "B") "B" rfl (by decide) (by decide) rfl⟩

/-- C6 (counterexample): the claim says a `setPrompt` from a connection that
is not the bound host of any session yields exactly one error event; but
after a host issues `leave` (which destroys the session without clearing the
host's metadata), that connection hosts no session and its `setQuestion`
produces no output at all. -/
theorem c6_counterexample :
    c6stale.sessions = []
      ∧ (c6stale.meta 0).role = some "host" ∧ (c6stale.meta 0).sid = some "S"
      ∧ V1.setQuestion c6stale 0 (Js.str "What is 2+2?") = (c6stale, []) := by
  exact ⟨rfl, rfl, rfl, rfl⟩

/-- C6 (amended): a `setQuestion` from a connection whose metadata is not
host-with-truthy-session yields exactly one error event to the sender only;
a connection whose stale metadata still claims a deleted session (reachable
after a host sends `leave`) yields no event at all.  In both cases no state
changes and nothing is broadcast. -/
theorem c6_amended (st : V1.ServerState) (ws : SocketId) (textJs : Js) :
    (((st.meta ws).role ≠ some "host" ∨ optTruthy (st.meta ws).sid = false) →
      V1.setQuestion st ws textJs
        = (st, [Output.msg ws (Event.errorMsg "Only host can set question")]))
    ∧ (∀ sid, (st.meta ws).role = some "host" → (st.meta ws).sid = some sid →
        sid ≠ "" → mapGet? st.sessions sid = none →
        V1.setQuestion st ws textJs = (st, [])) := by
  constructor
  · intro h
    have hc : (((st.meta ws).role != some "host") || !optTruthy (st.meta ws).sid) = true := by
      rcases h with h | h
      · simp only [Bool.or_eq_true, bne_iff_ne]
        exact Or.inl h
      · simp [h]
    simp [V1.setQuestion, hc]
  · intro sid hrole hsid hne hlook
    have hc : (((st.meta ws).role != some "host") || !optTruthy (st.meta ws).sid) = false := by
      simp [hrole, hsid, optTruthy, hne]
    have hgd : (st.meta ws).sid.getD "" = sid := by rw [hsid]; rfl
    simp only [V1.setQuestion, hc, hgd, hlook, Bool.false_eq_true, if_false]

/-- C6 (witness): an unbound connection gets exactly the error event, and the
stale-host connection of `c6stale` gets nothing. -/
theorem c6_witness :
    V1.setQuestion emptyV1 0 (Js.str "q")
        = (emptyV1, [Output.msg 0 (Event.errorMsg "Only host can set question")])
      ∧ V1.setQuestion c6stale 0 (Js.str "q") = (c6stale, []) :=
  ⟨(c6_amended emptyV1 0 (Js.str "q")).1 (Or.inl (by decide)),
   (c6_amended c6stale 0 (Js.str "q")).2 "S" rfl rfl (by decide) rfl⟩

/-- C7 (counterexample): the claim says that on close every member receives
`sessionClosed` and is itself disconnected by the server; in the first
snapshot both the explicit close and the host-disconnect cleanup broadcast
`sessionClosed` but emit no disconnect of any member. -/
theorem c7_counterexample :
    mapGet? c7st.sessions "S" = some ⟨0, [("ana", 1)], ""⟩
      ∧ (V1.closeSession c7st 0).2
          = [Output.msg 0 Event.sessionClosed, Output.msg 1 Event.sessionClosed]
      ∧ noDisconnects (V1.closeSession c7st 0).2 = true
      ∧ (V1.cleanupSocket c7st 0).2 = [Output.msg 1 Event.sessionClosed]
      ∧ noDisconnects (V1.cleanupSocket c7st 0).2 = true := by
  refine ⟨rfl, ?_, ?_, ?_, ?_⟩ <;> decide

/-- C7 (amended): host disconnect and explicit close agree on the
member-observable behaviour in every snapshot — the same `sessionClosed`
deliveries to members and removal of the session from the registry (explicit
close additionally notifies the closing host itself).  But only the third
snapshot disconnects the members server-side; the first and second snapshots
emit no disconnect on either path. -/
theorem c7_amended :
    (∀ (st : V1.ServerState) (ws : SocketId) (sid : String) (s : V1.Session),
      (st.meta ws).role = some "host" → (st.meta ws).sid = some sid → sid ≠ "" →
      mapGet? st.sessions sid = some s → s.host = ws → ws ∉ mapValues s.users →
      (mapKeys st.sessions).Nodup →
      (V1.closeSession st ws).1.sessions = (V1.cleanupSocket st ws).1.sessions
        ∧ mapGet? (V1.closeSession st ws).1.sessions sid = none
        ∧ (V1.closeSession st ws).2
            = (if st.isOpen ws = true then [Output.msg ws Event.sessionClosed] else [])
                ++ (V1.cleanupSocket st ws).2
        ∧ noDisconnects (V1.closeSession st ws).2 = true
        ∧ noDisconnects (V1.cleanupSocket st ws).2 = true)
    ∧ (∀ (st3 : V3.ServerState) (socket : SocketId) (sid : String) (s : V3.Session),
      st3.sessions.find? (fun p => p.2.owner == socket) = some (sid, s) →
      (st3.socketMeta socket).sid = some sid →
      (st3.socketMeta socket).role = some "host" → sid ≠ "" →
      mapGet? st3.sessions sid = some s →
      (V3.closeHandler st3 socket).1.sessions = mapDelete st3.sessions sid
        ∧ (V3.closeHandler st3 socket).2
            = V3.broadcast s Event.sessionClosed
                ++ ((mapValues s.users).map fun u => Output.disconnect u.1)
        ∧ (V3.socketCloseHandler st3 socket).1.sessions = mapDelete st3.sessions sid
        ∧ (V3.socketCloseHandler st3 socket).2
            = V3.broadcast s Event.sessionClosed
                ++ ((mapValues s.users).map fun u => Output.disconnect u.1)) := by
  constructor
  · intro st ws sid s hrole hsid hne hlook hhost hnot hnd
    have hc1 : (((st.meta ws).role != some "host") || !optTruthy (st.meta ws).sid) = false := by
      simp [hrole, hsid, optTruthy, hne]
    have hc2 : optTruthy (st.meta ws).sid = true := by
      simp [hsid, optTruthy, hne]
    have hc3 : ((st.meta ws).role == some "host") = true := by simp [hrole]
    have hgd : (st.meta ws).sid.getD "" = sid := by rw [hsid]; rfl
    have hsplit : V1.broadcastSession st sid Event.sessionClosed none
        = (if st.isOpen ws = true then [Output.msg ws Event.sessionClosed] else [])
            ++ V1.broadcastSession st sid Event.sessionClosed (some ws) := by
      have husers : ((mapValues s.users).filterMap fun sock =>
            if st.isOpen sock && (some sock != (none : Option SocketId)) then
              some (Output.msg sock Event.sessionClosed)
            else none)
          = (mapValues s.users).filterMap fun sock =>
              if st.isOpen sock && (some sock != some ws) then
                some (Output.msg sock Event.sessionClosed)
              else none := by
        apply List.filterMap_congr
        intro sock hsock
        have hne' : sock ≠ ws := fun h => hnot (h ▸ hsock)
        simp [hne']
      simp only [V1.broadcastSession, hlook, hhost, husers]
      by_cases ho : st.isOpen ws = true <;> simp [ho]
    have hcrun : V1.closeSession st ws
        = (⟨mapDelete st.sessions sid,
            V1.updMeta (V1.unbindAll st.meta (mapValues s.users)) ws
              (fun mm => { mm with sid := none }), st.isOpen⟩,
           V1.broadcastSession st sid Event.sessionClosed none) := by
      simp only [V1.closeSession, hc1, hgd, hlook, Bool.false_eq_true, if_false]
    have hlrun : V1.cleanupSocket st ws
        = (⟨mapDelete st.sessions sid, V1.unbindAll st.meta (mapValues s.users),
            st.isOpen⟩,
           V1.broadcastSession st sid Event.sessionClosed (some ws)) := by
      simp only [V1.cleanupSocket, hc2, hc3, hgd, hlook, Bool.not_true,
        Bool.false_eq_true, if_false, if_true]
    rw [hcrun, hlrun]
    exact ⟨rfl, mapGet?_mapDelete_self hnd, hsplit,
      noDisconnects_broadcastSession .., noDisconnects_broadcastSession ..⟩
  · intro st3 socket sid s hfind hsid hrole hne hlook
    have hc2 : optTruthy (st3.socketMeta socket).sid = true := by
      simp [hsid, optTruthy, hne]
    have hc3 : ((st3.socketMeta socket).role == some "host") = true := by simp [hrole]
    have hgd : (st3.socketMeta socket).sid.getD "" = sid := by rw [hsid]; rfl
    refine ⟨?_, ?_, ?_, ?_⟩ <;>
      simp [V3.closeHandler, V3.socketCloseHandler, hfind, hc2, hc3, hgd, hlook]

/-- C7 (witness): at the concrete states `c7st` and `c7st3`. -/
theorem c7_witness :
    ((V1.closeSession c7st 0).1.sessions = (V1.cleanupSocket c7st 0).1.sessions
        ∧ mapGet? (V1.closeSession c7st 0).1.sessions "S" = none
        ∧ (V1.closeSession c7st 0).2
            = (if c7st.isOpen 0 = true then [Output.msg 0 Event.sessionClosed] else [])
                ++ (V1.cleanupSocket c7st 0).2
        ∧ noDisconnects (V1.closeSession c7st 0).2 = true
        ∧ noDisconnects (V1.cleanupSocket c7st 0).2 = true)
      ∧ ((V3.closeHandler c7st3 0).1.sessions = mapDelete c7st3.sessions "S"
        ∧ (V3.closeHandler c7st3 0).2
            = V3.broadcast ⟨"S", 0, "M0", [("ana", (1, "M1"))], ""⟩ Event.sessionClosed
                ++ ((mapValues [("ana", ((1 : SocketId), "M1"))]).map fun u =>
                      Output.disconnect u.1)
        ∧ (V3.socketCloseHandler c7st3 0).1.sessions = mapDelete c7st3.sessions "S"
        ∧ (V3.socketCloseHandler c7st3 0).2
            = V3.broadcast ⟨"S", 0, "M0", [("ana", (1, "M1"))], ""⟩ Event.sessionClosed
                ++ ((mapValues [("ana", ((1 : SocketId), "M1"))]).map fun u =>
                      Output.disconnect u.1)) :=
  ⟨c7_amended.1 c7st 0 "S" ⟨0, [("ana", 1)], ""⟩ rfl rfl (by decide) rfl rfl
      (by decide) (by decide),
   c7_amended.2 c7st3 0 "S" ⟨"S", 0, "M0", [("ana", (1, "M1"))], ""⟩ (by decide) rfl rfl
      (by decide) rfl⟩

/-- C8 (counterexample): the claim says the member-left broadcast is emitted
only if a removal actually occurred; in the first snapshot's cleanup, socket 7
whose stale name `"ana"` is bound to a different socket removes nothing, yet
`userLeft` and the user list are still broadcast. -/
theorem c8_counterexample :
    mapGet? c8st.sessions "S" = some ⟨0, [("ana", 5)], ""⟩
      ∧ c8st.meta 7 = ⟨some "student", some "S", some "ana"⟩
      ∧ (V1.cleanupSocket c8st 7).1.sessions = c8st.sessions
      ∧ (V1.cleanupSocket c8st 7).2
          = [Output.msg 0 (Event.userLeft "S" "ana"),
             Output.msg 5 (Event.userLeft "S" "ana"),
             Output.msg 0 (Event.usersList "S" ["ana"]),
             Output.msg 5 (Event.usersList "S" ["ana"])] := by
  refine ⟨rfl, rfl, ?_, ?_⟩ <;> decide

/-- C8 (amended): in the third snapshot's `leave` handler the departure
broadcast is emitted only when `s.users.delete(name)` actually removed an
entry; in the first and second snapshots the same-socket guard protects only
the deletion, and `userLeft` plus the user list are broadcast even when no
removal occurred (the registry itself is left unchanged). -/
theorem c8_amended :
    (∀ (st : V1.ServerState) (ws : SocketId) (sid name : String) (s : V1.Session),
      (st.meta ws).role = some "student" → (st.meta ws).sid = some sid → sid ≠ "" →
      (st.meta ws).name = some name → name ≠ "" →
      mapGet? st.sessions sid = some s → mapGet? s.users name ≠ some ws →
      V1.cleanupSocket st ws
        = (st, V1.broadcastSession st sid (Event.userLeft sid name) (some ws)
                 ++ V1.pushUsersList st sid))
    ∧ (∀ (st3 : V3.ServerState) (socket : SocketId) (sidJs nameJs : Js)
        (sid name : String) (s : V3.Session),
      jsToUpper ((jsOr sidJs (jsOr (jsOfOpt (st3.socketMeta socket).sid)
          (Js.str ""))).toStr) = sid →
      jsTrim ((jsOr nameJs (jsOr (jsOfOpt (st3.socketMeta socket).name)
          (Js.str ""))).toStr) = name →
      mapGet? st3.sessions sid = some s → name ≠ "" → mapHas s.users name = false →
      (V3.leaveHandler st3 socket sidJs nameJs).2 = []
        ∧ (V3.leaveHandler st3 socket sidJs nameJs).1.sessions = st3.sessions) := by
  constructor
  · intro st ws sid name s hrole hsid hsne hname hnne hlook hno
    have hc1 : (((st.meta ws).role != some "student")
        || !optTruthy (st.meta ws).sid || !optTruthy (st.meta ws).name) = false := by
      simp [hrole, hsid, hname, optTruthy, hsne, hnne]
    have hc2 : optTruthy (st.meta ws).sid = true := by simp [hsid, optTruthy, hsne]
    have hc3 : ((st.meta ws).role == some "host") = false := by simp [hrole]
    have hc4 : (((st.meta ws).role == some "student") && optTruthy (st.meta ws).name)
        = true := by simp [hrole, hname, optTruthy, hnne]
    have hgd : (st.meta ws).sid.getD "" = sid := by rw [hsid]; rfl
    have hgn : (st.meta ws).name.getD "" = name := by rw [hname]; rfl
    have hbeq : (mapGet? s.users name == some ws) = false := beq_eq_false_iff_ne.mpr hno
    have hs : { s with users := s.users } = s := rfl
    have hset : mapSet st.sessions sid s = st.sessions := mapSet_get_self hlook
    have hst : { st with sessions := st.sessions } = st := rfl
    simp only [V1.cleanupSocket, hc2, hc3, hc4, hgd, hgn, hlook, hbeq,
      Bool.not_true, if_false, if_true, Bool.false_eq_true]
    simp only [hs, hset, hst]
  · intro st3 socket sidJs nameJs sid name s hsid hname hlook hne hnohas
    have hnne : (name == "") = false := beq_eq_false_iff_ne.mpr hne
    constructor <;> simp [V3.leaveHandler, hsid, hname, hlook, hnne, hnohas]

/-- C5: after a host's explicit `close`, the session identifier no longer
resolves in the registry; a subsequent `join` for it yields only the
invalid-session error event with no state change; an `answer` from any former
member is silently undelivered (its session binding was cleared by the
close); and a `setPrompt` from the former host yields only the not-host error
event.  No such command mutates state or delivers a payload as if the session
still existed. -/
theorem c5_close_then_commands_fail (st : V1.ServerState) (hostW : SocketId)
    (sid : String) (s : V1.Session)
    (hnd : (mapKeys st.sessions).Nodup)
    (hrole : (st.meta hostW).role = some "host")
    (hsid : (st.meta hostW).sid = some sid) (hne : sid ≠ "")
    (hlook : mapGet? st.sessions sid = some s)
    (hnorm : jsTrim (jsToUpper sid) = sid) :
    mapGet? (V1.closeSession st hostW).1.sessions sid = none
      ∧ (∀ (ws : SocketId) (nameJs : Js),
          V1.joinSession (V1.closeSession st hostW).1 ws (Js.str sid) nameJs
            = .ok ((V1.closeSession st hostW).1,
                [Output.msg ws (Event.errorMsg "Invalid session or name")]))
      ∧ (∀ m, m ∈ mapValues s.users → ∀ codeJs,
          V1.handleAnswer (V1.closeSession st hostW).1 m codeJs
            = ((V1.closeSession st hostW).1, []))
      ∧ (∀ textJs,
          V1.setQuestion (V1.closeSession st hostW).1 hostW textJs
            = ((V1.closeSession st hostW).1,
               [Output.msg hostW (Event.errorMsg "Only host can set question")])) := by
  have hc1 : (((st.meta hostW).role != some "host") || !optTruthy (st.meta hostW).sid)
      = false := by simp [hrole, hsid, optTruthy, hne]
  have hgd : (st.meta hostW).sid.getD "" = sid := by rw [hsid]; rfl
  have hcrun : V1.closeSession st hostW
      = (⟨mapDelete st.sessions sid,
          V1.updMeta (V1.unbindAll st.meta (mapValues s.users)) hostW
            (fun mm => { mm with sid := none }), st.isOpen⟩,
         V1.broadcastSession st sid Event.sessionClosed none) := by
    simp only [V1.closeSession, hc1, hgd, hlook, Bool.false_eq_true, if_false]
  have hlookNone : mapGet? (V1.closeSession st hostW).1.sessions sid = none := by
    rw [hcrun]
    exact mapGet?_mapDelete_self hnd
  refine ⟨hlookNone, ?_, ?_, ?_⟩
  · intro ws nameJs
    have hcoerce : upperTrimOrThrow (Js.str sid) = .ok sid := by
      simp [upperTrimOrThrow, jsOr, Js.truthy, bne_iff_ne, hne, hnorm]
    simp only [V1.joinSession, hcoerce, hlookNone]
  · intro m hm codeJs
    have hsidm : ((V1.closeSession st hostW).1.meta m).sid = none := by
      rw [hcrun]
      by_cases hmw : m = hostW
      · simp [V1.updMeta, hmw]
      · simp only [V1.updMeta, if_neg hmw]
        exact unbindAll_sid_none hm
    have hcnd : ((((V1.closeSession st hostW).1.meta m).role != some "student")
        || !optTruthy ((V1.closeSession st hostW).1.meta m).sid
        || !optTruthy ((V1.closeSession st hostW).1.meta m).name) = true := by
      rw [hsidm]
      simp [optTruthy]
    simp only [V1.handleAnswer, hcnd, if_true]
  · intro textJs
    have hrl : ((V1.closeSession st hostW).1.meta hostW).role = some "host" := by
      rw [hcrun]
      simp [V1.updMeta, unbindAll_role, hrole]
    have hsd : ((V1.closeSession st hostW).1.meta hostW).sid = none := by
      rw [hcrun]
      simp [V1.updMeta]
    have hcnd : ((((V1.closeSession st hostW).1.meta hostW).role != some "host")
        || !optTruthy ((V1.closeSession st hostW).1.meta hostW).sid) = true := by
      rw [hsd]
      simp [optTruthy]
    simp only [V1.setQuestion, hcnd, if_true]

/-- C5 (witness): closing `"S"` in `c5st` and then joining, answering and
setting the prompt against it. -/
theorem c5_witness :
    mapGet? (V1.closeSession c5st 0).1.sessions "S" = none
      ∧ V1.joinSession (V1.closeSession c5st 0).1 2 (Js.str "S") (Js.str "bob")
          = .ok ((V1.closeSession c5st 0).1,
              [Output.msg 2 (Event.errorMsg "Invalid session or name")])
      ∧ V1.handleAnswer (V1.closeSession c5st 0).1 1 (Js.str "print(4)")
          = ((V1.closeSession c5st 0).1, [])
      ∧ V1.setQuestion (V1.closeSession c5st 0).1 0 (Js.str "next")
          = ((V1.closeSession c5st 0).1,
             [Output.msg 0 (Event.errorMsg "Only host can set question")]) := by
  have h := c5_close_then_commands_fail c5st 0 "S" ⟨0, [("ana", 1)], ""⟩
    (by decide) rfl rfl (by decide) rfl (by decide)
  exact ⟨h.1, h.2.1 2 (Js.str "bob"), h.2.2.1 1 (by decide) (Js.str "print(4)"),
    h.2.2.2 (Js.str "next")⟩

/-- C10: invoking the disconnect/cleanup path twice for a member handle
leaves the state exactly as after one invocation, and the same-socket guard
(`s.users.get(name) === ws`) means cleanup on behalf of one socket never
evicts a different connection now registered under the same display name. -/
theorem c10_cleanup_idempotent :
    (∀ (st : V1.ServerState) (ws : SocketId),
      (st.meta ws).role = some "student" →
      (∀ sid s, (st.meta ws).sid = some sid → mapGet? st.sessions sid = some s →
        (mapKeys s.users).Nodup) →
      (V1.cleanupSocket (V1.cleanupSocket st ws).1 ws).1 = (V1.cleanupSocket st ws).1)
    ∧ (∀ (st : V1.ServerState) (ws ws2 : SocketId) (sid name : String) (s : V1.Session),
      (st.meta ws).role = some "student" → (st.meta ws).sid = some sid →
      (st.meta ws).name = some name →
      mapGet? st.sessions sid = some s → mapGet? s.users name = some ws2 → ws2 ≠ ws →
      (V1.cleanupSocket st ws).1 = st) := by
  have hb : ∀ (st : V1.ServerState) (ws ws2 : SocketId) (sid name : String)
      (s : V1.Session),
      (st.meta ws).role = some "student" → (st.meta ws).sid = some sid →
      (st.meta ws).name = some name →
      mapGet? st.sessions sid = some s → mapGet? s.users name = some ws2 → ws2 ≠ ws →
      (V1.cleanupSocket st ws).1 = st := by
    intro st ws ws2 sid name s hrole hsid hname hlook hget hw
    by_cases hse : sid = ""
    · have hc : (!optTruthy (st.meta ws).sid) = true := by simp [hsid, hse, optTruthy]
      simp only [V1.cleanupSocket, hc, if_true]
    · have hc : (!optTruthy (st.meta ws).sid) = false := by simp [hsid, optTruthy, hse]
      have hgd : (st.meta ws).sid.getD "" = sid := by rw [hsid]; rfl
      have hc3 : ((st.meta ws).role == some "host") = false := by simp [hrole]
      by_cases hnn : name = ""
      · have hc4 : (((st.meta ws).role == some "student") && optTruthy (st.meta ws).name)
            = false := by simp [hname, hnn, optTruthy]
        simp only [V1.cleanupSocket, hc, hgd, hlook, hc3, hc4, Bool.false_eq_true,
          if_false]
      · have hc4 : (((st.meta ws).role == some "student") && optTruthy (st.meta ws).name)
            = true := by simp [hrole, hname, optTruthy, hnn]
        have hgn : (st.meta ws).name.getD "" = name := by rw [hname]; rfl
        have hbeq : (mapGet? s.users name == some ws) = false := by
          rw [hget]
          simp [hw]
        have hs : { s with users := s.users } = s := rfl
        have hset : mapSet st.sessions sid s = st.sessions := mapSet_get_self hlook
        have hst : { st with sessions := st.sessions } = st := rfl
        simp only [V1.cleanupSocket, hc, hgd, hlook, hc3, hc4, hgn, hbeq,
          Bool.false_eq_true, if_false, if_true]
        simp only [hs, hset, hst]
  refine ⟨?_, hb⟩
  intro st ws hrole hnodup
  cases hsid : (st.meta ws).sid with
  | none =>
      have hc : (!optTruthy (st.meta ws).sid) = true := by simp [hsid, optTruthy]
      have h1 : V1.cleanupSocket st ws = (st, []) := by
        simp only [V1.cleanupSocket, hc, if_true]
      simp [h1]
  | some sid =>
      by_cases hse : sid = ""
      · have hc : (!optTruthy (st.meta ws).sid) = true := by simp [hsid, hse, optTruthy]
        have h1 : V1.cleanupSocket st ws = (st, []) := by
          simp only [V1.cleanupSocket, hc, if_true]
        simp [h1]
      · have hc : (!optTruthy (st.meta ws).sid) = false := by simp [hsid, optTruthy, hse]
        have hgd : (st.meta ws).sid.getD "" = sid := by rw [hsid]; rfl
        have hc3 : ((st.meta ws).role == some "host") = false := by simp [hrole]
        cases hlk : mapGet? st.sessions sid with
        | none =>
            have h1 : V1.cleanupSocket st ws = (st, []) := by
              simp only [V1.cleanupSocket, hc, hgd, hlk, Bool.false_eq_true, if_false]
            simp [h1]
        | some s =>
            cases hnm : (st.meta ws).name with
            | none =>
                have hc4 : (((st.meta ws).role == some "student")
                    && optTruthy (st.meta ws).name) = false := by simp [hnm, optTruthy]
                have h1 : V1.cleanupSocket st ws = (st, []) := by
                  simp only [V1.cleanupSocket, hc, hgd, hlk, hc3, hc4,
                    Bool.false_eq_true, if_false]
                simp [h1]
            | some name =>
                by_cases hnn : name = ""
                · have hc4 : (((st.meta ws).role == some "student")
                      && optTruthy (st.meta ws).name) = false := by
                    simp [hnm, hnn, optTruthy]
                  have h1 : V1.cleanupSocket st ws = (st, []) := by
                    simp only [V1.cleanupSocket, hc, hgd, hlk, hc3, hc4,
                      Bool.false_eq_true, if_false]
                  simp [h1]
                · have hc4 : (((st.meta ws).role == some "student")
                      && optTruthy (st.meta ws).name) = true := by
                    simp [hrole, hnm, optTruthy, hnn]
                  have hgn : (st.meta ws).name.getD "" = name := by rw [hnm]; rfl
                  have hnd : (mapKeys s.users).Nodup := hnodup sid s hsid hlk
                  cases hget : mapGet? s.users name with
                  | none =>
                      have hbeq : (mapGet? s.users name == some ws) = false := by
                        rw [hget]; rfl
                      have hs : { s with users := s.users } = s := rfl
                      have hset : mapSet st.sessions sid s = st.sessions :=
                        mapSet_get_self hlk
                      have hst : { st with sessions := st.sessions } = st := rfl
                      have h1 : (V1.cleanupSocket st ws).1 = st := by
                        simp only [V1.cleanupSocket, hc, hgd, hlk, hc3, hc4, hgn, hbeq,
                          Bool.false_eq_true, if_false, if_true]
                        simp only [hs, hset, hst]
                      rw [h1]
                      exact h1
                  | some ws2 =>
                      by_cases hw : ws2 = ws
                      · rw [hw] at hget
                        have hbeq : (mapGet? s.users name == some ws) = true := by
                          rw [hget]; simp
                        have h1 : (V1.cleanupSocket st ws).1
                            = { st with sessions := (mapSet st.sessions sid
                                { s with users := mapDelete s.users name }) } := by
                          simp only [V1.cleanupSocket, hc, hgd, hlk, hc3, hc4, hgn,
                            hbeq, Bool.false_eq_true, if_false, if_true]
                        rw [h1]
                        set st1 : V1.ServerState :=
                          { st with sessions := (mapSet st.sessions sid
                              { s with users := mapDelete s.users name }) } with hst1
                        have hmeta1 : st1.meta ws = st.meta ws := rfl
                        have hlk1 : mapGet? st1.sessions sid
                            = some { s with users := mapDelete s.users name } :=
                          mapGet?_mapSet_self ..
                        have hget1 : mapGet? (mapDelete s.users name) name = none :=
                          mapGet?_mapDelete_self hnd
                        have hbeq1 : (mapGet? (mapDelete s.users name) name == some ws)
                            = false := by rw [hget1]; rfl
                        have hc' : (!optTruthy (st1.meta ws).sid) = false := by
                          rw [hmeta1]; exact hc
                        have hgd' : (st1.meta ws).sid.getD "" = sid := by
                          rw [hmeta1]; exact hgd
                        have hc3' : ((st1.meta ws).role == some "host") = false := by
                          rw [hmeta1]; exact hc3
                        have hc4' : (((st1.meta ws).role == some "student")
                            && optTruthy (st1.meta ws).name) = true := by
                          rw [hmeta1]; exact hc4
                        have hgn' : (st1.meta ws).name.getD "" = name := by
                          rw [hmeta1]; exact hgn
                        have hset1 : mapSet st1.sessions sid
                            { s with users := mapDelete s.users name }
                            = st1.sessions := mapSet_get_self hlk1
                        have hst1eta : { st1 with sessions := st1.sessions } = st1 := rfl
                        simp only [V1.cleanupSocket, hc', hgd', hlk1, hc3', hc4',
                          hgn', hbeq1, Bool.false_eq_true, if_false, if_true]
                        simp only [hset1, hst1eta]
                      · have h1 := hb st ws ws2 sid name s hrole hsid hnm hlk hget hw
                        rw [h1]
                        exact h1

/-- C10 (witness): cleaning up member socket 1 of `c10st` twice, and a
cleanup on behalf of stale socket 7 of `c8st` whose name now belongs to
socket 5. -/
theorem c10_witness :
    (V1.cleanupSocket (V1.cleanupSocket c10st 1).1 1).1 = (V1.cleanupSocket c10st 1).1
      ∧ (V1.cleanupSocket c8st 7).1 = c8st :=
  ⟨c10_cleanup_idempotent.1 c10st 1 rfl
      (fun sid s hsid hlook => by
        cases hsid
        rw [show s = ⟨0, [("ana", 1)], ""⟩ from by
          have : mapGet? c10st.sessions "S" = some ⟨0, [("ana", 1)], ""⟩ := rfl
          rw [this] at hlook
          exact (Option.some_inj.mp hlook).symm]
        decide),
   c10_cleanup_idempotent.2 c8st 7 5 "S" "ana" ⟨0, [("ana", 5)], ""⟩ rfl rfl rfl rfl rfl
     (by decide)⟩

/-- C2 (counterexample): the claim says a join whose desired name collides is
assigned a suffixed unique name and never fails solely because of the
collision; in the third snapshot, joining session `"S"` as `"ana"` while
`"ana"` is already a member is rejected with `Name already used` and no name
is assigned. -/
theorem c2_counterexample :
    mapHas (⟨"S", 0, "M0", [("ana", (1, "M1"))], ""⟩ : V3.Session).users "ana" = true
      ∧ V3.joinHandler c2st3 7 (Js.str "S") (Js.str "ana") (Js.str "M2")
          = (c2st3, [Output.msg 7 (Event.errorMsg "Name already used")]) := by
  exact ⟨rfl, rfl⟩

/-- C2 (amended): in the first and second snapshots a colliding join is
resolved by appending an incrementing numeric suffix — the loop always
terminates with a name not yet in the session, so the join never fails solely
because of the collision, and membership keys stay duplicate-free at all
times; in the third snapshot a colliding join is instead rejected with a
`Name already used` error and no state change. -/
theorem c2_amended :
    (∀ (st : V1.ServerState) (ws : SocketId) (sid : String) (nameJs : Js)
        (s : V1.Session),
      mapGet? st.sessions sid = some s → (mapKeys s.users).Nodup →
      jsTrim (jsToUpper sid) = sid → sid ≠ "" → strTrimOf nameJs ≠ "" →
      ∃ finalName,
        V1.pickUnique s.users (strTrimOf nameJs) = some finalName
          ∧ mapHas s.users finalName = false
          ∧ (finalName = strTrimOf nameJs
              ∨ ∃ k, finalName = strTrimOf nameJs ++ "-" ++ natStr (k + 2))
          ∧ okSessions? (V1.joinSession st ws (Js.str sid) nameJs)
              = some (mapSet st.sessions sid
                  { s with users := mapSet s.users finalName ws })
          ∧ (mapKeys (mapSet s.users finalName ws)).Nodup)
    ∧ (∀ (st3 : V3.ServerState) (socket : SocketId) (sidJs nameJs machineIdJs : Js)
        (s : V3.Session),
      mapGet? st3.sessions (jsToUpper (strOf sidJs)) = some s →
      strTrimOf nameJs ≠ "" → mapHas s.users (strTrimOf nameJs) = true →
      V3.joinHandler st3 socket sidJs nameJs machineIdJs
        = (st3, [Output.msg socket (Event.errorMsg "Name already used")])) := by
  constructor
  · intro st ws sid nameJs s hlook hnd hnorm hne hnne
    have hcoerce : upperTrimOrThrow (Js.str sid) = .ok sid := by
      simp [upperTrimOrThrow, jsOr, Js.truthy, bne_iff_ne, hne, hnorm]
    cases hp : V1.pickUnique s.users (strTrimOf nameJs) with
    | none => exact absurd hp (pickUnique_isSome _ hnd)
    | some finalName =>
        obtain ⟨hfresh, j, hshape⟩ := suffixFrom_some_spec hp
        refine ⟨finalName, rfl, hfresh, ?_, ?_, mapKeys_mapSet_nodup _ hnd⟩
        · cases j with
          | zero => exact Or.inl hshape
          | succ k => exact Or.inr ⟨k, hshape⟩
        · simp only [V1.joinSession, hcoerce, hlook]
          rw [if_neg (by simp [hne, hnne]), hp]
          rfl
  · intro st3 socket sidJs nameJs machineIdJs s hlook hnne hhas
    have hb : (strTrimOf nameJs == "") = false := beq_eq_false_iff_ne.mpr hnne
    simp [V3.joinHandler, hlook, hb, hhas]

/-- C2 (witness): joining `c2st` (where `"ana"` is taken by socket 1) as
`"ana"` from socket 2 succeeds with a suffixed name, and the same collision
against the third snapshot's `c2st3` is rejected. -/
theorem c2_witness :
    (∃ finalName,
        V1.pickUnique (⟨0, [("ana", 1)], ""⟩ : V1.Session).users
            (strTrimOf (Js.str "ana")) = some finalName
          ∧ mapHas (⟨0, [("ana", 1)], ""⟩ : V1.Session).users finalName = false
          ∧ (finalName = strTrimOf (Js.str "ana")
              ∨ ∃ k, finalName = strTrimOf (Js.str "ana") ++ "-" ++ natStr (k + 2))
          ∧ okSessions? (V1.joinSession c2st 2 (Js.str "S") (Js.str "ana"))
              = some (mapSet c2st.sessions "S"
                  { (⟨0, [("ana", 1)], ""⟩ : V1.Session) with
                    users := mapSet (⟨0, [("ana", 1)], ""⟩ : V1.Session).users
                      finalName 2 })
          ∧ (mapKeys (mapSet (⟨0, [("ana", 1)], ""⟩ : V1.Session).users
              finalName 2)).Nodup)
      ∧ V3.joinHandler c2st3 7 (Js.str "S") (Js.str "ana") (Js.str "M2")
          = (c2st3, [Output.msg 7 (Event.errorMsg "Name already used")]) :=
  ⟨c2_amended.1 c2st 2 "S" (Js.str "ana") ⟨0, [("ana", 1)], ""⟩ rfl (by decide) rfl
      (by decide) (by decide),
   c2_amended.2 c2st3 7 (Js.str "S") (Js.str "ana") (Js.str "M2")
      ⟨"S", 0, "M0", [("ana", (1, "M1"))], ""⟩ rfl (by decide) (by decide)⟩

/-- C9 (amended): provided the `sessionId` field of a decoded message is a
string or falsy, no command — whatever the values of its other fields —
throws (the only `TypeError` sites are the `toUpperCase` coercions of
`sessionId` in `create` and `join`), and no command ever disconnects any
connection server-side in the first snapshot. -/
theorem c9_amended (gen : List String) (st : V1.ServerState) (ws : SocketId)
    (om : Option Msg)
    (hgood : ∀ m, om = some m → stringOrFalsy m.sessionId = true) :
    V1.handleMessage gen st ws om ≠ .error JsAbort.typeError
      ∧ (∀ st1 outs, V1.handleMessage gen st ws om = .ok (st1, outs) →
          noDisconnects outs = true) := by
  cases om with
  | none =>
      refine ⟨by simp [V1.handleMessage], ?_⟩
      intro st1 outs hc
      simp only [V1.handleMessage, Except.ok.injEq, Prod.mk.injEq] at hc
      rw [← hc.2]
      simp [noDisconnects, Output.isDisconnect]
  | some m =>
      have hgood' : stringOrFalsy m.sessionId = true := hgood m rfl
      cases htype : m.type with
      | str t =>
          simp only [V1.handleMessage, htype]
          by_cases h1 : t = "create"
          · rw [if_pos (by simp [h1])]
            exact createSession_safe gen st ws m.sessionId hgood'
          rw [if_neg (by simp [h1])]
          by_cases h2 : t = "join"
          · rw [if_pos (by simp [h2])]
            exact joinSession_safe st ws m.sessionId m.name hgood'
          rw [if_neg (by simp [h2])]
          by_cases h3 : t = "setQuestion"
          · rw [if_pos (by simp [h3])]
            refine ⟨by simp, ?_⟩
            intro st1 outs hc
            simp only [Except.ok.injEq] at hc
            have h4 := congrArg Prod.snd hc
            simp only at h4
            rw [← h4]
            exact noDisconnects_setQuestion ..
          rw [if_neg (by simp [h3])]
          by_cases h5 : t = "answer"
          · rw [if_pos (by simp [h5])]
            refine ⟨by simp, ?_⟩
            intro st1 outs hc
            simp only [Except.ok.injEq] at hc
            have h6 := congrArg Prod.snd hc
            simp only at h6
            rw [← h6]
            exact noDisconnects_handleAnswer ..
          rw [if_neg (by simp [h5])]
          by_cases h7 : t = "feedback"
          · rw [if_pos (by simp [h7])]
            refine ⟨by simp, ?_⟩
            intro st1 outs hc
            simp only [Except.ok.injEq] at hc
            have h8 := congrArg Prod.snd hc
            simp only at h8
            rw [← h8]
            exact noDisconnects_sendFeedback ..
          rw [if_neg (by simp [h7])]
          by_cases h9 : t = "close"
          · rw [if_pos (by simp [h9])]
            refine ⟨by simp, ?_⟩
            intro st1 outs hc
            simp only [Except.ok.injEq] at hc
            have h10 := congrArg Prod.snd hc
            simp only at h10
            rw [← h10]
            exact noDisconnects_closeSession ..
          rw [if_neg (by simp [h9])]
          by_cases h11 : t = "leave"
          · rw [if_pos (by simp [h11])]
            refine ⟨by simp, ?_⟩
            intro st1 outs hc
            simp only [Except.ok.injEq] at hc
            have h12 := congrArg Prod.snd hc
            simp only at h12
            rw [← h12]
            exact noDisconnects_cleanupSocket ..
          rw [if_neg (by simp [h11])]
          refine ⟨by simp, ?_⟩
          intro st1 outs hc
          simp only [Except.ok.injEq, Prod.mk.injEq] at hc
          rw [← hc.2]
          simp [noDisconnects, Output.isDisconnect]
      | num n =>
          refine ⟨by simp [V1.handleMessage, htype], ?_⟩
          intro st1 outs hc
          simp only [V1.handleMessage, htype, Except.ok.injEq, Prod.mk.injEq] at hc
          rw [← hc.2]
          simp [noDisconnects, Output.isDisconnect]
      | bool b =>
          refine ⟨by simp [V1.handleMessage, htype], ?_⟩
          intro st1 outs hc
          simp only [V1.handleMessage, htype, Except.ok.injEq, Prod.mk.injEq] at hc
          rw [← hc.2]
          simp [noDisconnects, Output.isDisconnect]
      | null =>
          refine ⟨by simp [V1.handleMessage, htype], ?_⟩
          intro st1 outs hc
          simp only [V1.handleMessage, htype, Except.ok.injEq, Prod.mk.injEq] at hc
          rw [← hc.2]
          simp [noDisconnects, Output.isDisconnect]
      | undef =>
          refine ⟨by simp [V1.handleMessage, htype], ?_⟩
          intro st1 outs hc
          simp only [V1.handleMessage, htype, Except.ok.injEq, Prod.mk.injEq] at hc
          rw [← hc.2]
          simp [noDisconnects, Output.isDisconnect]
      | obj =>
          refine ⟨by simp [V1.handleMessage, htype], ?_⟩
          intro st1 outs hc
          simp only [V1.handleMessage, htype, Except.ok.injEq, Prod.mk.injEq] at hc
          rw [← hc.2]
          simp [noDisconnects, Output.isDisconnect]
      | arr =>
          refine ⟨by simp [V1.handleMessage, htype], ?_⟩
          intro st1 outs hc
          simp only [V1.handleMessage, htype, Except.ok.injEq, Prod.mk.injEq] at hc
          rw [← hc.2]
          simp [noDisconnects, Output.isDisconnect]

/-- C9 (witness): a `setQuestion` from an unbound connection neither throws
nor disconnects anyone — it answers with a single error event. -/
theorem c9_witness :
    V1.handleMessage [] emptyV1 0
        (some ⟨Js.str "setQuestion", Js.undef, Js.undef, Js.str "hi", Js.undef, Js.undef⟩)
      ≠ .error JsAbort.typeError
      ∧ noDisconnects [Output.msg 0 (Event.errorMsg "Only host can set question")]
          = true :=
  ⟨(c9_amended [] emptyV1 0
      (some ⟨Js.str "setQuestion", Js.undef, Js.undef, Js.str "hi", Js.undef, Js.undef⟩)
      (fun m hm => by cases hm; rfl)).1,
   (c9_amended [] emptyV1 0
      (some ⟨Js.str "setQuestion", Js.undef, Js.undef, Js.str "hi", Js.undef, Js.undef⟩)
      (fun m hm => by cases hm; rfl)).2 emptyV1
      [Output.msg 0 (Event.errorMsg "Only host can set question")] rfl⟩

/-- C8 (witness): the stale cleanup of `c8st` broadcasts without removal, and
the third snapshot's `leave` for an absent name emits nothing. -/
theorem c8_witness :
    V1.cleanupSocket c8st 7
        = (c8st, V1.broadcastSession c8st "S" (Event.userLeft "S" "ana") (some 7)
                   ++ V1.pushUsersList c8st "S")
      ∧ ((V3.leaveHandler c8st3 7 (Js.str "S") (Js.str "bob")).2 = []
        ∧ (V3.leaveHandler c8st3 7 (Js.str "S") (Js.str "bob")).1.sessions
            = c8st3.sessions) :=
  ⟨c8_amended.1 c8st 7 "S" "ana" ⟨0, [("ana", 5)], ""⟩ rfl rfl (by decide) rfl
      (by decide) rfl (by decide),
   c8_amended.2 c8st3 7 (Js.str "S") (Js.str "bob") "S" "bob"
      ⟨"S", 0, "M0", [("ana", (1, "M1"))], ""⟩ rfl rfl rfl (by decide) (by decide)⟩

end Collab
